import Mathlib

/-!
# Smart irrigation dashboard: telemetry merge, history buffer and irrigation status

A shallow embedding of the state handling in
`src/client/src/components/sections/dashboard-content.jsx`.

JavaScript values are embedded as the inductive type `JVal`; objects are
association lists read with `getProp` (an absent key reads as `undefined`)
and written with `setProp`.  Finite numbers are exact rationals, so every
comparison of the source is the comparison of the embedded values; the
arithmetic of the display maps rounds the result of each operation, with
`roundDouble` for the arithmetic of the language.
-/

namespace SmartIrrigation

/-! ## JavaScript values -/

/-- JavaScript numbers: NaN, the two infinities, and the finite values as exact rationals. -/
inductive JNum where
  | nan
  | negInf
  | fin (q : ℚ)
  | posInf

/-- JavaScript values that can occur in a parsed frame or in the component state. -/
inductive JVal where
  | undefined
  | null
  | bool (b : Bool)
  | num (n : JNum)
  | str (s : String)
  | arr (items : List JVal)
  | obj (props : List (String × JVal))

/-- Own properties of a JavaScript object, in insertion order. -/
abbrev JObj := List (String × JVal)

/-- Property read `o.key` on an object: the value of the first binding of `key`,
`undefined` when the object has no such property. -/
def getProp : JObj → String → JVal
  | [], _ => JVal.undefined
  | (k, v) :: rest, key => if k = key then v else getProp rest key

/-- Property definition in an object literal: overwrite the binding of `key`
in place when there is one, append a new binding otherwise. -/
def setProp : JObj → String → JVal → JObj
  | [], key, v => [(key, v)]
  | (k, w) :: rest, key, v =>
    if k = key then (k, v) :: rest else (k, w) :: setProp rest key v

/-- The number literal `q` as a value. -/
def numLit (q : ℚ) : JVal := JVal.num (JNum.fin q)

/-- The operator `a ?? b`: `b` when `a` is `null` or `undefined`, else `a`. -/
def nullish (a b : JVal) : JVal :=
  match a with
  | JVal.undefined => b
  | JVal.null => b
  | _ => a

/-- The conditional `a !== undefined ? a : b`. -/
def ifDefined (a b : JVal) : JVal :=
  match a with
  | JVal.undefined => b
  | _ => a

/-- ToBoolean: the falsy values are `undefined`, `null`, `false`, `0`, `NaN` and `""`. -/
def truthy : JVal → Bool
  | JVal.undefined => false
  | JVal.null => false
  | JVal.bool b => b
  | JVal.num JNum.nan => false
  | JVal.num (JNum.fin q) => decide (q ≠ 0)
  | JVal.num _ => true
  | JVal.str s => decide (s ≠ "")
  | JVal.arr _ => true
  | JVal.obj _ => true

/-- The operator `a || b`. -/
def orElse (a b : JVal) : JVal := if truthy a then a else b

/-- ToNumber.  On strings, arrays and objects the conversion (StringToNumber,
ToPrimitive) is the language's own and is taken as the parameter `conv`. -/
def toNumber (conv : JVal → JNum) : JVal → JNum
  | JVal.undefined => JNum.nan
  | JVal.null => JNum.fin 0
  | JVal.bool true => JNum.fin 1
  | JVal.bool false => JNum.fin 0
  | JVal.num n => n
  | v => conv v

/-- Numeric `a >= b`: false as soon as one side is NaN. -/
def JNum.ge : JNum → JNum → Bool
  | JNum.nan, _ => false
  | _, JNum.nan => false
  | JNum.posInf, _ => true
  | _, JNum.negInf => true
  | JNum.negInf, _ => false
  | _, JNum.posInf => false
  | JNum.fin a, JNum.fin b => decide (b ≤ a)

/-- The comparison `v >= q` of a value with a number literal. -/
def geLit (conv : JVal → JNum) (v : JVal) (q : ℚ) : Bool :=
  JNum.ge (toNumber conv v) (JNum.fin q)

/-! ## Irrigation status -/

/-- The object returned by `getIrrigationStatus`. -/
structure IrrigationStatus where
  status : String
  color : String
  bgColor : String
  description : String

/-- `getIrrigationStatus` (dashboard-content.jsx, lines 352-378), reading the
component state `sensorData`. -/
def getIrrigationStatus (conv : JVal → JNum) (sensorData : JObj) : IrrigationStatus :=
  let score := orElse (getProp sensorData "irrigationScore") (numLit 0)
  let threshold : ℚ := 6
  if geLit conv score threshold then
    { status := "Recommended"
      color := "text-green-600"
      bgColor := "bg-green-50 border-green-200"
      description := "Conditions favor irrigation" }
  else if geLit conv score (threshold - 2) then
    { status := "Consider"
      color := "text-yellow-600"
      bgColor := "bg-yellow-50 border-yellow-200"
      description := "Irrigation may be beneficial" }
  else
    { status := "Not Recommended"
      color := "text-red-600"
      bgColor := "bg-red-50 border-red-200"
      description := "Conditions do not favor irrigation" }

/-! ## Component state and the message handler -/

/-- `initialSensorData` (lines 39-54); `t0` is the reading of the clock
(`new Date().toISOString()`) when the module is loaded. -/
def initialSensorData (t0 : String) : JObj :=
  [ ("temperature", numLit 28.5),
    ("humidity", numLit 65),
    ("soilMoisture", numLit 5),
    ("soilMoistureRaw", numLit 3000),
    ("lightLevel", numLit 90),
    ("lightLevelRaw", numLit 300),
    ("rainDrop", numLit 0),
    ("rainDropRaw", numLit 4000),
    ("pumpStatus", JVal.bool false),
    ("autoMode", JVal.bool true),
    ("irrigationScore", numLit 0),
    ("lastUpdated", JVal.str t0),
    ("connectionStatus", JVal.bool true),
    ("espConnected", JVal.bool false) ]

/-- Property read `data.key` on a parsed value that is neither `null` nor
`undefined`, for the property names this program reads (none of them is a
member of a built-in prototype, an index or `length`): the own property of an
object, `undefined` on every other value. -/
def field (data : JVal) (key : String) : JVal :=
  match data with
  | JVal.obj props => getProp props key
  | _ => JVal.undefined

/-- Whether a property read on `data` raises a TypeError: it does exactly on
`null` and `undefined`. -/
def readThrows : JVal → Bool
  | JVal.undefined => true
  | JVal.null => true
  | _ => false

mutual
/-- Whether the conversion of a parsed value to a primitive, which arithmetic
applies to its operands, raises a TypeError.  It does on an object with an own
property `toString`: coming from JSON the property is not callable, it hides
the method of the prototype, and `valueOf` returns the object itself.  It does
on an array when the conversion of one of its elements does, since the array
is converted by joining its elements. -/
def convThrows : JVal → Bool
  | JVal.obj props => decide ("toString" ∈ props.map Prod.fst)
  | JVal.arr items => anyConvThrows items
  | _ => false
/-- Whether the conversion of one of the values raises a TypeError. -/
def anyConvThrows : List JVal → Bool
  | [] => false
  | v :: rest => convThrows v || anyConvThrows rest
end

/-- Whether lines 215-223 of the handler raise a TypeError: the property read
does on `null`, and the expressions `1023 - data.soilMoisture`,
`1023 - data.lightLevel` and `50 + data.humidity` do when the field cannot be
converted to a primitive. -/
def tryThrows (data : JVal) : Bool :=
  readThrows data || convThrows (field data "soilMoisture") ||
    convThrows (field data "lightLevel") || convThrows (field data "humidity")

/-- The updater passed to `setSensorData` in `socket.onmessage`
(lines 227-247); `now` is the clock reading taken inside the updater. -/
def setSensorDataUpdater (data : JVal) (now : String) (prev : JObj) : JObj :=
  let o := prev
  let o := setProp o "temperature" (nullish (field data "temperature") (getProp prev "temperature"))
  let o := setProp o "humidity" (ifDefined (field data "humidity") (getProp prev "humidity"))
  let o := setProp o "soilMoisture" (nullish (field data "soilMoisture") (getProp prev "soilMoisture"))
  let o := setProp o "soilMoistureRaw"
    (ifDefined (field data "soilMoistureRaw") (getProp prev "soilMoistureRaw"))
  let o := setProp o "lightLevel" (ifDefined (field data "lightLevel") (getProp prev "lightLevel"))
  let o := setProp o "lightLevelRaw"
    (ifDefined (field data "lightLevelRaw") (getProp prev "lightLevelRaw"))
  let o := setProp o "rainDrop" (ifDefined (field data "rainDrop") (getProp prev "rainDrop"))
  let o := setProp o "rainDropRaw" (ifDefined (field data "rainDropRaw") (getProp prev "rainDropRaw"))
  let o := setProp o "pumpStatus" (nullish (field data "pumpStatus") (getProp prev "pumpStatus"))
  let o := setProp o "autoMode" (nullish (field data "autoMode") (getProp prev "autoMode"))
  let o := setProp o "irrigationScore"
    (ifDefined (field data "irrigationScore") (getProp prev "irrigationScore"))
  let o := setProp o "lastUpdated" (JVal.str now)
  setProp o "espConnected" (nullish (field data "espConnected") (getProp prev "espConnected"))

/-- Index-keyed properties `i, i+1, ...` of the elements of a list, as the
spread of an array or of a string enumerates them. -/
def indexed : Nat → List JVal → JObj
  | _, [] => []
  | i, v :: rest => (toString i, v) :: indexed (i + 1) rest

/-- Object spread of `data` (the part written before the explicit properties
of the literal): the own enumerable properties of `data`.  Objects give their
properties, arrays and strings their indexed elements (a string by character,
which is its UTF-16 unit for text of the basic plane), every other value gives
none. -/
def spread : JVal → JObj
  | JVal.obj props => props
  | JVal.arr items => indexed 0 items
  | JVal.str s => indexed 0 (s.toList.map (fun c => JVal.str (String.singleton c)))
  | _ => []

/-- The entry stored in the history for a parsed value (lines 200-203). -/
def historyEntry (data : JVal) (now : String) : JObj :=
  setProp (spread data) "timestamp" (JVal.str now)

/-- The method call `xs.slice(-n)` on an array: its last `n` elements. -/
def sliceLast {α : Type} (n : Nat) (xs : List α) : List α :=
  xs.drop (xs.length - n)

/-- The updater passed to `setSensorHistory` in `socket.onmessage`
(lines 197-207). -/
def setSensorHistoryUpdater (data : JVal) (now : String) (prev : List JObj) : List JObj :=
  let newHistory := prev ++ [historyEntry data now]
  sliceLast 100 newHistory

/-- The two pieces of component state written by the message handler. -/
structure Dashboard where
  sensorData : JObj
  sensorHistory : List JObj

/-- One inbound WebSocket message: the text `event.data` and the two clock
readings taken by the history updater and by the state updater. -/
structure Message where
  payload : String
  tHistory : String
  tState : String

/-- The exceptions that the `try` block of the handler can raise. -/
inductive JsError where
  | syntaxError
  | typeError

/-- The `try` block of `socket.onmessage` (lines 193-248): the component state
it leaves behind, and the exception that interrupted it, if any.  `parse` is
`JSON.parse`, `none` standing for its SyntaxError.  The history updater is
queued first; the reads of `data.soilMoisture`, `data.lightLevel` and
`data.humidity` and the arithmetic on them (lines 215-223, whose results are
not used afterwards) raise a TypeError on `null` and on a field that cannot be
converted to a primitive; then the state updater is queued.  An update queued
before an exception is still applied. -/
def onmessageTry (parse : String → Option JVal) (ev : Message) (st : Dashboard) :
    Dashboard × Option JsError :=
  match parse ev.payload with
  | none => (st, some JsError.syntaxError)
  | some data =>
    let st1 : Dashboard :=
      { st with sensorHistory := setSensorHistoryUpdater data ev.tHistory st.sensorHistory }
    if tryThrows data then (st1, some JsError.typeError)
    else ({ st1 with sensorData := setSensorDataUpdater data ev.tState st1.sensorData }, none)

/-- The handler `socket.onmessage` (lines 190-252): the `try` block, and a
`catch` clause that only logs a warning, so the handler returns normally with
the state the `try` block left. -/
def onmessage (parse : String → Option JVal) (ev : Message) (st : Dashboard) : Dashboard :=
  (onmessageTry parse ev st).1

/-- The component state after a sequence of inbound messages. -/
def onmessages (parse : String → Option JVal) (evs : List Message) (st : Dashboard) : Dashboard :=
  evs.foldl (fun s ev => onmessage parse ev s) st

/-- The sensor state after merging a sequence of object frames, each with the
clock reading of its merge. -/
def mergeFrames (frames : List (JObj × String)) (st : JObj) : JObj :=
  frames.foldl (fun s fr => setSensorDataUpdater (JVal.obj fr.1) fr.2 s) st

/-- The history after appending the entries of a sequence of parsed values. -/
def appendFrames (frames : List (JVal × String)) (hist : List JObj) : List JObj :=
  frames.foldl (fun h fr => setSensorHistoryUpdater fr.1 fr.2 h) hist

/-- The mount-time component state (lines 76 and 79). -/
def initialDashboard (t0 : String) : Dashboard :=
  { sensorData := initialSensorData t0, sensorHistory := [] }

/-! ## Field groups and the statements of the specification -/

/-- The fields that the state updater merges with `??`. -/
def nullishFields : List String :=
  ["temperature", "soilMoisture", "pumpStatus", "autoMode", "espConnected"]

/-- The fields that the state updater merges with `!== undefined`. -/
def definedFields : List String :=
  ["humidity", "soilMoistureRaw", "lightLevel", "lightLevelRaw", "rainDrop", "rainDropRaw",
    "irrigationScore"]

/-- The telemetry fields that hold numbers. -/
def numericFields : List String :=
  ["temperature", "humidity", "soilMoisture", "soilMoistureRaw", "lightLevel", "lightLevelRaw",
    "rainDrop", "rainDropRaw", "irrigationScore"]

/-- The telemetry fields that hold booleans. -/
def booleanFields : List String :=
  ["pumpStatus", "autoMode", "espConnected"]

/-- Whether a value is `undefined`. -/
def isUndefined : JVal → Bool
  | JVal.undefined => true
  | _ => false

/-- Specification side: what a telemetry frame holds for a field, a number or
a boolean, or nothing at all. -/
def telemetryValue : JVal → Bool
  | JVal.undefined => true
  | JVal.bool _ => true
  | JVal.num _ => true
  | _ => false

/-- Specification side: a frame supplies a field when it holds a value for
it, that is, when reading the field gives something other than `undefined`. -/
def supplies (frame : JObj) (key : String) : Bool :=
  !isUndefined (getProp frame key)

/-- Specification side: the value of `key` in the last frame of the sequence
that supplies `key`, if there is one. -/
def lastSupplied (key : String) (frames : List (JObj × String)) : Option JVal :=
  (frames.reverse.find? (fun fr => supplies fr.1 key)).map (fun fr => getProp fr.1 key)

/-- A reading of `JSON.parse` on the texts used in the examples below: the
JSON texts `null`, `true`, `false` and the empty object are parsed, the other
example texts are not JSON. -/
def parseExample : String → Option JVal
  | "null" => some JVal.null
  | "true" => some (JVal.bool true)
  | "false" => some (JVal.bool false)
  | "\x7b\x7d" => some (JVal.obj [])
  | _ => none

/-- The twelve telemetry fields merged from a frame. -/
def telemetryFields : List String :=
  ["temperature", "humidity", "soilMoisture", "soilMoistureRaw", "lightLevel", "lightLevelRaw",
    "rainDrop", "rainDropRaw", "pumpStatus", "autoMode", "irrigationScore", "espConnected"]

/-- The state reached in the example scenario: from `initialSensorData`, the
frame with `soilMoisture: 20, rainIntensity: 0` is merged, then the frame with
`temperature: 34`. -/
def exampleScenario (t0 t1 t2 : String) : JObj :=
  mergeFrames
    [([("soilMoisture", numLit 20), ("rainIntensity", numLit 0)], t1),
     ([("temperature", numLit 34)], t2)]
    (initialSensorData t0)

/-- Whether a parsed value is a structured record, that is, a JSON object. -/
def isRecord : JVal → Bool
  | JVal.obj _ => true
  | _ => false

/-- The frame that `togglePump`, `toggleAutoMode` and `refreshData` send
(lines 287-292): `type: "control-command"` with the command string `c`. -/
def commandFrame (c : String) : JObj :=
  [("type", JVal.str "control-command"), ("command", JVal.str c)]

/-- The command strings the dashboard emits (lines 283, 304 and 330). -/
def recognizedCommands : List String :=
  ["pump-on", "pump-off", "auto-on", "auto-off", "frontend-connected"]

/-- A reading of `JSON.parse` on two more example texts, a telemetry frame
holding only `temperature: 30` and a command frame with the command `noop`;
every other text is read by `parseExample`. -/
def parseFrameExample : String → Option JVal
  | "\x7b\"temperature\":30\x7d" => some (JVal.obj [("temperature", numLit 30)])
  | "\x7b\"type\":\"control-command\",\"command\":\"noop\"\x7d" =>
    some (JVal.obj (commandFrame "noop"))
  | text => parseExample text

/-! ## The relay server (`src/server/server.js`) -/

/-- The `readyState` of a WebSocket, under the names of its constants. -/
inductive ReadyState where
  | CONNECTING
  | OPEN
  | CLOSING
  | CLOSED
  deriving DecidableEq

/-- An element of `wss.clients`: a connection, identified by `id`, and its
`readyState` when the message handler runs. -/
structure Client where
  id : Nat
  readyState : ReadyState
  deriving DecidableEq

/-- The argument of the `message` event: a Buffer, given by its bytes, or
data of another kind. -/
inductive WsData where
  | buffer (bytes : List Nat)
  | other

/-- The handler `ws.on("message", ...)` (server.js, lines 36-51): the calls
`client.send(data)` it makes, in order, each as the receiving client's `id`
and the payload.  `utf8` is `Buffer.toString('utf-8')`; `clients` lists the set
`wss.clients` in iteration order. -/
def onServerMessage (utf8 : List Nat → String) (clients : List Client) (message : WsData) :
    List (Nat × String) :=
  match message with
  | WsData.buffer bytes =>
    let data := utf8 bytes
    clients.foldl
      (fun sent client =>
        if client.readyState = ReadyState.OPEN then sent ++ [(client.id, data)] else sent)
      []
  | WsData.other => []

/-- A reading of `Buffer.toString('utf-8')` on buffers of ASCII bytes. -/
def decodeAscii (bytes : List Nat) : String :=
  String.mk (bytes.map Char.ofNat)

/-- Specification side: an outbound frame text carries a field when it parses
to a record that holds a value for it. -/
def carries (parse : String → Option JVal) (text key : String) : Bool :=
  match parse text with
  | some (JVal.obj props) => !isUndefined (getProp props key)
  | _ => false

/-! ## The connection life cycle of the client

The effect of `DashboardContent` (dashboard-content.jsx, lines 174-274) and
the one of `App` (App.jsx, lines 10-47) have the same shape: `connectWebSocket`
constructs a socket and stores it in `wsRef.current`; `onclose` schedules
`connectWebSocket` again with `setTimeout`; the cleanup closes
`wsRef.current`. -/

/-- The connection state of the component: every socket constructed so far
with its `readyState` (in order of construction), `wsRef.current` as an index
into them, the `isConnected` flag, and the number of `connectWebSocket`
callbacks scheduled with `setTimeout` that have not run yet. -/
structure Connection where
  sockets : List ReadyState
  wsRef : Option Nat
  isConnected : Bool
  pendingTimers : Nat
  deriving DecidableEq

/-- What can happen to the component: the effect runs on mount, the browser
reports that socket `i` opened, failed or closed, a scheduled timeout expires,
or the cleanup of the effect runs on unmount. -/
inductive ConnEvent where
  | mount
  | opened (i : Nat)
  | errored (i : Nat)
  | closed (i : Nat)
  | timer
  | cleanup

/-- The function `connectWebSocket`: `new WebSocket(API)` and the assignment to
`wsRef.current`. -/
def connectWebSocket (st : Connection) : Connection :=
  { st with
    sockets := st.sockets ++ [ReadyState.CONNECTING]
    wsRef := some st.sockets.length }

/-- The method `close()` of a socket: a socket that is connecting or open
starts closing, otherwise nothing happens. -/
def closeSocket : ReadyState → ReadyState
  | ReadyState.CONNECTING => ReadyState.CLOSING
  | ReadyState.OPEN => ReadyState.CLOSING
  | s => s

/-- One event of the life cycle.  An event that cannot occur in the state (a
socket that does not exist or is already closed, no timeout pending) leaves
the state as it is. -/
def connStep (st : Connection) : ConnEvent → Connection
  | ConnEvent.mount => connectWebSocket st
  | ConnEvent.opened i =>
    if st.sockets.get? i = some ReadyState.CONNECTING then
      { st with sockets := st.sockets.set i ReadyState.OPEN, isConnected := true }
    else st
  | ConnEvent.errored i =>
    if i < st.sockets.length then { st with isConnected := false } else st
  | ConnEvent.closed i =>
    match st.sockets.get? i with
    | none => st
    | some ReadyState.CLOSED => st
    | some _ =>
      { st with
        sockets := st.sockets.set i ReadyState.CLOSED
        isConnected := false
        pendingTimers := st.pendingTimers + 1 }
  | ConnEvent.timer =>
    if st.pendingTimers = 0 then st
    else connectWebSocket { st with pendingTimers := st.pendingTimers - 1 }
  | ConnEvent.cleanup =>
    match st.wsRef with
    | none => st
    | some i =>
      match st.sockets.get? i with
      | none => st
      | some s => { st with sockets := st.sockets.set i (closeSocket s) }

/-- The state after a sequence of events. -/
def connRun (evs : List ConnEvent) (st : Connection) : Connection :=
  evs.foldl connStep st

/-- The connection state before the effect has run. -/
def unmounted : Connection :=
  { sockets := [], wsRef := none, isConnected := false, pendingTimers := 0 }

/-! ## Number operations used by the display helpers -/

/-- Numeric `a < b`: false as soon as one side is NaN. -/
def JNum.lt : JNum → JNum → Bool
  | JNum.nan, _ => false
  | _, JNum.nan => false
  | JNum.posInf, _ => false
  | _, JNum.negInf => false
  | JNum.negInf, _ => true
  | _, JNum.posInf => true
  | JNum.fin a, JNum.fin b => decide (a < b)

/-- The comparison `v < q` of a value with a number literal. -/
def ltLit (conv : JVal → JNum) (v : JVal) (q : ℚ) : Bool :=
  JNum.lt (toNumber conv v) (JNum.fin q)

/-- The comparison `v > q` of a value with a number literal. -/
def gtLit (conv : JVal → JNum) (v : JVal) (q : ℚ) : Bool :=
  JNum.lt (JNum.fin q) (toNumber conv v)

/-- The integer nearest to `x`, a tie going to the even one. -/
def roundHalfEven (x : ℚ) : ℤ :=
  if x - ⌊x⌋ < 1 / 2 then ⌊x⌋
  else if 1 / 2 < x - ⌊x⌋ then ⌊x⌋ + 1
  else if ⌊x⌋ % 2 = 0 then ⌊x⌋ else ⌊x⌋ + 1

/-- The spacing of the doubles in the binade of a positive `a`: 52 binary
places below its leading bit, and no finer than that of the smallest normal
binade. -/
def quantum (a : ℚ) : ℚ :=
  (2 : ℚ) ^ (Max.max (Int.log 2 a) (-1022) - 52)

/-- The rounding that every arithmetic operation of the language applies to
its exact result (IEEE 754 binary64, round to nearest, ties to even), below the
overflow threshold, which the operations of the display maps do not reach from
a double argument. -/
def roundDouble (x : ℚ) : ℚ :=
  if 0 ≤ x then roundHalfEven (x / quantum x) * quantum x
  else -(roundHalfEven (-x / quantum (-x)) * quantum (-x))

/-- The quotient `a / q` by a positive number literal `q`; `rnd` is the
rounding of the exact result (`roundDouble` for the language, `id` for exact
arithmetic). -/
def JNum.divLit (rnd : ℚ → ℚ) (a : JNum) (q : ℚ) : JNum :=
  match a with
  | JNum.fin x => JNum.fin (rnd (x / q))
  | other => other

/-- The product `a * q` with a positive number literal `q`, rounded by `rnd`. -/
def JNum.mulLit (rnd : ℚ → ℚ) (a : JNum) (q : ℚ) : JNum :=
  match a with
  | JNum.fin x => JNum.fin (rnd (x * q))
  | other => other

/-- The difference `q - a` from a number literal `q`, rounded by `rnd`. -/
def JNum.litSub (rnd : ℚ → ℚ) (q : ℚ) (a : JNum) : JNum :=
  match a with
  | JNum.nan => JNum.nan
  | JNum.negInf => JNum.posInf
  | JNum.posInf => JNum.negInf
  | JNum.fin x => JNum.fin (rnd (q - x))

/-- `Math.min(a, b)`: NaN as soon as one argument is NaN. -/
def JNum.min : JNum → JNum → JNum
  | JNum.nan, _ => JNum.nan
  | _, JNum.nan => JNum.nan
  | JNum.negInf, _ => JNum.negInf
  | _, JNum.negInf => JNum.negInf
  | JNum.posInf, b => b
  | a, JNum.posInf => a
  | JNum.fin x, JNum.fin y => JNum.fin (Min.min x y)

/-- `Math.max(a, b)`: NaN as soon as one argument is NaN. -/
def JNum.max : JNum → JNum → JNum
  | JNum.nan, _ => JNum.nan
  | _, JNum.nan => JNum.nan
  | JNum.posInf, _ => JNum.posInf
  | _, JNum.posInf => JNum.posInf
  | JNum.negInf, b => b
  | a, JNum.negInf => a
  | JNum.fin x, JNum.fin y => JNum.fin (Max.max x y)

/-- The global function `isNaN(v)`: whether ToNumber of `v` is NaN. -/
def isNaN (conv : JVal → JNum) (v : JVal) : Bool :=
  match toNumber conv v with
  | JNum.nan => true
  | _ => false

/-- The guard `value === null || value === undefined || isNaN(value)` that
opens the four display helpers. -/
def noData (conv : JVal → JNum) (value : JVal) : Bool :=
  match value with
  | JVal.null => true
  | JVal.undefined => true
  | v => isNaN conv v

/-! ## Display helpers (dashboard-content.jsx, lines 57-170) -/

/-- `mapSoilMoisture` (lines 57-64); `rnd` rounds the result of the division,
of the multiplication and of the subtraction. -/
def mapSoilMoisture (rnd : ℚ → ℚ) (conv : JVal → JNum) (rawValue : JVal) : JNum :=
  if noData conv rawValue then JNum.fin 0
  else
    JNum.max (JNum.fin 0) (JNum.min (JNum.fin 100)
      (JNum.litSub rnd 100
        (JNum.mulLit rnd (JNum.divLit rnd (toNumber conv rawValue) 1024) 100)))

/-- `mapLightIntensity` (lines 66-73); `rnd` as in `mapSoilMoisture`. -/
def mapLightIntensity (rnd : ℚ → ℚ) (conv : JVal → JNum) (rawValue : JVal) : JNum :=
  if noData conv rawValue then JNum.fin 0
  else
    JNum.max (JNum.fin 0) (JNum.min (JNum.fin 100)
      (JNum.litSub rnd 100
        (JNum.mulLit rnd (JNum.divLit rnd (toNumber conv rawValue) 4095) 100)))

/-- The object returned by `getStatusInfo`. -/
structure StatusInfo where
  text : String
  color : String
  deriving DecidableEq

/-- `getStatusInfo` (lines 83-124). -/
def getStatusInfo (conv : JVal → JNum) (value : JVal) (type : String) : StatusInfo :=
  if noData conv value then { text := "No Data", color := "text-gray-500" }
  else if type = "temperature" then
    if ltLit conv value 18 then { text := "Low", color := "text-blue-500" }
    else if gtLit conv value 35 then { text := "High", color := "text-red-500" }
    else { text := "Optimal", color := "text-green-500" }
  else if type = "humidity" then
    if ltLit conv value 30 then { text := "Low", color := "text-red-500" }
    else if gtLit conv value 80 then { text := "High", color := "text-blue-500" }
    else { text := "Optimal", color := "text-green-500" }
  else if type = "soilMoisture" then
    if geLit conv value 80 then { text := "Wet/Water", color := "text-blue-500" }
    else if geLit conv value 40 then { text := "Moist", color := "text-green-500" }
    else if geLit conv value 10 then { text := "Dry", color := "text-yellow-500" }
    else if geLit conv value 0 then { text := "Air/No Soil", color := "text-red-500" }
    else { text := "Unknown", color := "text-gray-500" }
  else if type = "lightIntensity" then
    if geLit conv value 90 then { text := "Bright Sunlight", color := "text-gray-500" }
    else if geLit conv value 70 then { text := "Indoor Light", color := "text-blue-500" }
    else if geLit conv value 40 then { text := "Dim/Shadow", color := "text-green-500" }
    else if geLit conv value 0 then { text := "Very Dark", color := "text-yellow-500" }
    else { text := "Unknown", color := "text-gray-500" }
  else if type = "rainDrop" then
    if geLit conv value 80 then { text := "Heavy Rain", color := "text-blue-600" }
    else if geLit conv value 50 then { text := "Moderate Rain", color := "text-blue-500" }
    else if geLit conv value 20 then { text := "Light Rain", color := "text-blue-400" }
    else if geLit conv value 5 then { text := "Drizzle", color := "text-gray-500" }
    else if geLit conv value 0 then { text := "No Rain", color := "text-gray-400" }
    else { text := "Unknown", color := "text-gray-500" }
  else { text := "Unknown", color := "text-gray-500" }

/-- `getGaugeColor` (lines 128-170). -/
def getGaugeColor (conv : JVal → JNum) (value : JVal) (type : String) : String :=
  if noData conv value then "#64748b"
  else if type = "temperature" then
    if ltLit conv value 18 then "#3b82f6"
    else if gtLit conv value 30 then "#ef4444"
    else "#22c55e"
  else if type = "humidity" then
    if ltLit conv value 30 then "#ef4444"
    else if gtLit conv value 80 then "#3b82f6"
    else "#22c55e"
  else if type = "soilMoisture" then
    if geLit conv value 80 then "#3b82f6"
    else if geLit conv value 40 then "#22c55e"
    else if geLit conv value 10 then "#eab308"
    else if geLit conv value 0 then "#ef4444"
    else "#64748b"
  else if type = "lightIntensity" then
    if geLit conv value 90 then "#64748b"
    else if geLit conv value 70 then "#3b82f6"
    else if geLit conv value 40 then "#22c55e"
    else if geLit conv value 0 then "#eab308"
    else "#64748b"
  else if type = "rainDrop" then
    if geLit conv value 80 then "#1e40af"
    else if geLit conv value 50 then "#3b82f6"
    else if geLit conv value 20 then "#60a5fa"
    else if geLit conv value 5 then "#94a3b8"
    else if geLit conv value 0 then "#cbd5e1"
    else "#64748b"
  else "#64748b"

/-- The five sensor types the display helpers know. -/
def knownTypes : List String :=
  ["temperature", "humidity", "soilMoisture", "lightIntensity", "rainDrop"]

/-- Specification side: the inverted, clamped map of the raw range 0-1024
onto 0-100 percent. -/
def mapSoilMoistureSpec (rawValue : ℚ) : ℚ :=
  Max.max 0 (Min.min 100 (100 - rawValue * 100 / 1024))

/-- The expression of line 63 on a finite number, the result of each
arithmetic operation rounded by `rnd`. -/
def mapSoilMoistureRounded (rnd : ℚ → ℚ) (rawValue : ℚ) : ℚ :=
  Max.max 0 (Min.min 100 (rnd (100 - rnd (rnd (rawValue / 1024) * 100))))

/-! ## Alerts (lines 381 and 1024-1042) -/

/-- The constant `irrigationNeeded` (line 381). -/
def irrigationNeeded (conv : JVal → JNum) (sensorData : JObj) : Bool :=
  geLit conv (getProp sensorData "irrigationScore") 6 &&
    ltLit conv (getProp sensorData "soilMoisture") 50 &&
    ltLit conv (getProp sensorData "rainDrop") 30

/-- Whether the "Irrigation Paused" alert is rendered (line 1034): the value
of `sensorData.irrigationScore < 4 && sensorData.autoMode` is truthy. -/
def irrigationPaused (conv : JVal → JNum) (sensorData : JObj) : Bool :=
  ltLit conv (getProp sensorData "irrigationScore") 4 && truthy (getProp sensorData "autoMode")

/-! ## Pump and mode toggles (lines 281-320) -/

/-- What a toggle does: the frames passed to `wsRef.current.send` (as objects,
before `JSON.stringify`), and the state its queued updater returns. -/
structure Toggle where
  sent : List JObj
  sensorData : JObj

/-- `togglePump` (lines 281-299).  `ws` is the `readyState` of
`wsRef.current`, `none` when there is no socket; `sensorData` is the state the
function reads, `prev` the state its updater is applied to. -/
def togglePump (ws : Option ReadyState) (sensorData prev : JObj) : Toggle :=
  let newStatus := !truthy (getProp sensorData "pumpStatus")
  let command := if newStatus then "pump-on" else "pump-off"
  { sent := if ws = some ReadyState.OPEN then [commandFrame command] else []
    sensorData := setProp prev "pumpStatus" (JVal.bool newStatus) }

/-- `toggleAutoMode` (lines 302-320), with the parameters of `togglePump`. -/
def toggleAutoMode (ws : Option ReadyState) (sensorData prev : JObj) : Toggle :=
  let newMode := !truthy (getProp sensorData "autoMode")
  let command := if newMode then "auto-on" else "auto-off"
  { sent := if ws = some ReadyState.OPEN then [commandFrame command] else []
    sensorData := setProp prev "autoMode" (JVal.bool newMode) }

/-- The own property names of an object, in order. -/
def keys (o : JObj) : List String :=
  o.map Prod.fst

/-! ## Basic facts about property reads and writes -/

theorem getProp_setProp (o : JObj) (k key : String) (v : JVal) :
    getProp (setProp o k v) key = if k = key then v else getProp o key := by
  induction o with
  | nil => simp [setProp, getProp]
  | cons p rest ih =>
    obtain ⟨k0, w⟩ := p
    by_cases h0 : k0 = k
    · subst h0
      by_cases h1 : k0 = key <;> simp [setProp, getProp, h1]
    · by_cases h2 : k0 = key
      · subst h2
        have h3 : ¬ k = k0 := fun e => h0 e.symm
        simp [setProp, getProp, h0, h3]
      · simp [setProp, getProp, h0, h2, ih]

/-- The score that `getIrrigationStatus` compares, for a numeric or missing
`irrigationScore`: a falsy score is replaced by 0 and compares as 0. -/
theorem geLit_score (conv : JVal → JNum) (v : JVal) (s q : ℚ)
    (h : v = numLit s ∨
      (s = 0 ∧ (v = JVal.undefined ∨ v = JVal.null ∨ v = JVal.num JNum.nan))) :
    geLit conv (orElse v (numLit 0)) q = decide (q ≤ s) := by
  rcases h with h | ⟨hs, h | h | h⟩
  · subst h
    by_cases h0 : s = 0
    · subst h0
      simp [orElse, truthy, numLit, geLit, toNumber, JNum.ge]
    · simp [orElse, truthy, numLit, geLit, toNumber, JNum.ge, h0]
  all_goals
    subst h
    subst hs
    simp [orElse, truthy, numLit, geLit, toNumber, JNum.ge]

/-! ## Irrigation status: the decision boundary -/

/-- C1: for a state whose `irrigationScore` is the number `s` (a missing,
`null` or NaN score counting as `s = 0`), `getIrrigationStatus` returns status
"Recommended" when `s >= 6`, "Consider" when `4 <= s < 6` and
"Not Recommended" when `s < 4`. -/
theorem getIrrigationStatus_bands (conv : JVal → JNum) (sensorData : JObj) (s : ℚ)
    (h : getProp sensorData "irrigationScore" = numLit s ∨
      (s = 0 ∧ (getProp sensorData "irrigationScore" = JVal.undefined ∨
        getProp sensorData "irrigationScore" = JVal.null ∨
        getProp sensorData "irrigationScore" = JVal.num JNum.nan))) :
    (6 ≤ s → (getIrrigationStatus conv sensorData).status = "Recommended") ∧
    (4 ≤ s → s < 6 → (getIrrigationStatus conv sensorData).status = "Consider") ∧
    (s < 4 → (getIrrigationStatus conv sensorData).status = "Not Recommended") := by
  have h6 := geLit_score conv _ s 6 h
  have h4 := geLit_score conv _ s (6 - 2) h
  have e : ((6 : ℚ) - 2) = 4 := by norm_num
  rw [e] at h4
  refine ⟨fun h1 => ?_, fun h1 h2 => ?_, fun h1 => ?_⟩
  · simp [getIrrigationStatus, h6, h1]
  · have h3 : ¬ (6 ≤ s) := not_le.mpr h2
    simp [getIrrigationStatus, h6, h4, e, h1, h3]
  · have h3 : ¬ (6 ≤ s) := by linarith
    have h5 : ¬ (4 ≤ s) := not_le.mpr h1
    simp [getIrrigationStatus, h6, h4, e, h3, h5]

/-- Score 6 gives "Recommended", score 5 gives "Consider", score 3 gives
"Not Recommended". -/
theorem getIrrigationStatus_bands_witness :
    (getIrrigationStatus (fun _ => JNum.nan) [("irrigationScore", numLit 6)]).status
      = "Recommended" ∧
    (getIrrigationStatus (fun _ => JNum.nan) [("irrigationScore", numLit 5)]).status
      = "Consider" ∧
    (getIrrigationStatus (fun _ => JNum.nan) [("irrigationScore", numLit 3)]).status
      = "Not Recommended" :=
  ⟨(getIrrigationStatus_bands _ [("irrigationScore", numLit 6)] 6
      (Or.inl (by simp [getProp]))).1 (by norm_num),
   (getIrrigationStatus_bands _ [("irrigationScore", numLit 5)] 5
      (Or.inl (by simp [getProp]))).2.1 (by norm_num) (by norm_num),
   (getIrrigationStatus_bands _ [("irrigationScore", numLit 3)] 3
      (Or.inl (by simp [getProp]))).2.2 (by norm_num)⟩

/-! ## The merge, field by field -/

/-- Every property of the merged state, read by name. -/
theorem getProp_setSensorDataUpdater (data : JVal) (now : String) (prev : JObj) (key : String) :
    getProp (setSensorDataUpdater data now prev) key =
      if key = "lastUpdated" then JVal.str now
      else if key ∈ nullishFields then nullish (field data key) (getProp prev key)
      else if key ∈ definedFields then ifDefined (field data key) (getProp prev key)
      else getProp prev key := by
  simp only [setSensorDataUpdater, getProp_setProp]
  by_cases h0 : "espConnected" = key
  · subst h0
    simp [nullishFields, definedFields]
  rw [if_neg h0]
  replace h0 : ¬ key = "espConnected" := fun e => h0 e.symm
  by_cases h1 : "lastUpdated" = key
  · subst h1
    simp [nullishFields, definedFields]
  rw [if_neg h1]
  replace h1 : ¬ key = "lastUpdated" := fun e => h1 e.symm
  by_cases h2 : "irrigationScore" = key
  · subst h2
    simp [nullishFields, definedFields]
  rw [if_neg h2]
  replace h2 : ¬ key = "irrigationScore" := fun e => h2 e.symm
  by_cases h3 : "autoMode" = key
  · subst h3
    simp [nullishFields, definedFields]
  rw [if_neg h3]
  replace h3 : ¬ key = "autoMode" := fun e => h3 e.symm
  by_cases h4 : "pumpStatus" = key
  · subst h4
    simp [nullishFields, definedFields]
  rw [if_neg h4]
  replace h4 : ¬ key = "pumpStatus" := fun e => h4 e.symm
  by_cases h5 : "rainDropRaw" = key
  · subst h5
    simp [nullishFields, definedFields]
  rw [if_neg h5]
  replace h5 : ¬ key = "rainDropRaw" := fun e => h5 e.symm
  by_cases h6 : "rainDrop" = key
  · subst h6
    simp [nullishFields, definedFields]
  rw [if_neg h6]
  replace h6 : ¬ key = "rainDrop" := fun e => h6 e.symm
  by_cases h7 : "lightLevelRaw" = key
  · subst h7
    simp [nullishFields, definedFields]
  rw [if_neg h7]
  replace h7 : ¬ key = "lightLevelRaw" := fun e => h7 e.symm
  by_cases h8 : "lightLevel" = key
  · subst h8
    simp [nullishFields, definedFields]
  rw [if_neg h8]
  replace h8 : ¬ key = "lightLevel" := fun e => h8 e.symm
  by_cases h9 : "soilMoistureRaw" = key
  · subst h9
    simp [nullishFields, definedFields]
  rw [if_neg h9]
  replace h9 : ¬ key = "soilMoistureRaw" := fun e => h9 e.symm
  by_cases h10 : "soilMoisture" = key
  · subst h10
    simp [nullishFields, definedFields]
  rw [if_neg h10]
  replace h10 : ¬ key = "soilMoisture" := fun e => h10 e.symm
  by_cases h11 : "humidity" = key
  · subst h11
    simp [nullishFields, definedFields]
  rw [if_neg h11]
  replace h11 : ¬ key = "humidity" := fun e => h11 e.symm
  by_cases h12 : "temperature" = key
  · subst h12
    simp [nullishFields, definedFields]
  rw [if_neg h12]
  replace h12 : ¬ key = "temperature" := fun e => h12 e.symm
  simp [nullishFields, definedFields, h0, h1, h2, h3, h4, h5, h6, h7, h8, h9, h10, h11, h12]

/-- A key that an object does not contain reads as `undefined`. -/
theorem getProp_absent (o : JObj) (key : String) (h : ∀ v, (key, v) ∉ o) :
    getProp o key = JVal.undefined := by
  induction o with
  | nil => rfl
  | cons p rest ih =>
    obtain ⟨k0, w⟩ := p
    have h0 : ¬ k0 = key := by
      intro e
      exact h w (by simp [e])
    have h1 : ∀ v, (key, v) ∉ rest := fun v hv => h v (List.mem_cons_of_mem _ hv)
    simp [getProp, h0, ih h1]

/-! ## Last write wins over a sequence of frames -/

theorem mergeFrames_append (fs : List (JObj × String)) (f : JObj × String) (st : JObj) :
    mergeFrames (fs ++ [f]) st = setSensorDataUpdater (JVal.obj f.1) f.2 (mergeFrames fs st) := by
  simp [mergeFrames, List.foldl_append]

theorem lastSupplied_append (key : String) (fs : List (JObj × String)) (f : JObj × String) :
    lastSupplied key (fs ++ [f]) =
      if supplies f.1 key then some (getProp f.1 key) else lastSupplied key fs := by
  by_cases h : supplies f.1 key <;> simp [lastSupplied, List.find?_cons, h]

/-- The last value supplied for a field depends on the frames only through
the values they hold for that field. -/
theorem lastSupplied_eq_values (key : String) (frames : List (JObj × String)) :
    lastSupplied key frames =
      ((frames.map (fun fr => getProp fr.1 key)).reverse.find? (fun v => !isUndefined v)) := by
  induction frames using List.reverseRecOn with
  | nil => rfl
  | append_singleton fs f ih =>
    rw [lastSupplied_append, ih]
    by_cases h : supplies f.1 key
    · have h2 : isUndefined (getProp f.1 key) = false := by simpa [supplies] using h
      simp [h, h2, List.find?_cons]
    · have h2 : isUndefined (getProp f.1 key) = true := by simpa [supplies] using h
      simp [h, h2, List.find?_cons]

theorem telemetryFields_cases (key : String) (hk : key ∈ telemetryFields) :
    key ≠ "lastUpdated" ∧ (key ∈ nullishFields ∨ key ∈ definedFields) := by
  simp only [telemetryFields, List.mem_cons, List.mem_singleton, List.not_mem_nil, or_false] at hk
  rcases hk with h | h | h | h | h | h | h | h | h | h | h | h <;> subst h <;>
    simp [nullishFields, definedFields]

/-- The merged value of a telemetry field. -/
theorem getProp_merge_telemetry (frame : JObj) (now : String) (prev : JObj) (key : String)
    (hk : key ∈ telemetryFields) :
    getProp (setSensorDataUpdater (JVal.obj frame) now prev) key =
      if key ∈ nullishFields then nullish (getProp frame key) (getProp prev key)
      else ifDefined (getProp frame key) (getProp prev key) := by
  obtain ⟨h1, h2⟩ := telemetryFields_cases key hk
  rw [getProp_setSensorDataUpdater, if_neg h1]
  by_cases h3 : key ∈ nullishFields
  · simp [h3, field]
  · have h4 : key ∈ definedFields := h2.resolve_left h3
    simp [h3, h4, field]

theorem mergeFrames_lastSupplied (st : JObj) (frames : List (JObj × String)) (key : String)
    (hk : key ∈ telemetryFields)
    (hnn : key ∈ nullishFields → ∀ fr ∈ frames, getProp fr.1 key ≠ JVal.null) :
    getProp (mergeFrames frames st) key = (lastSupplied key frames).getD (getProp st key) := by
  induction frames using List.reverseRecOn with
  | nil => rfl
  | append_singleton fs f ih =>
    have ih2 := ih (fun h fr hfr => hnn h fr (List.mem_append_left _ hfr))
    rw [mergeFrames_append, lastSupplied_append, getProp_merge_telemetry _ _ _ _ hk, ih2]
    cases hv : getProp f.1 key with
    | undefined => simp [supplies, hv, isUndefined, nullish, ifDefined]
    | null =>
      by_cases h3 : key ∈ nullishFields
      · exact absurd hv (hnn h3 f (by simp))
      · simp [supplies, hv, isUndefined, ifDefined, h3]
    | _ => simp [supplies, hv, isUndefined, nullish, ifDefined]

/-- C2: starting from `initialSensorData`, for every sequence of telemetry
frames (JSON objects that hold, for a telemetry field, a number, a boolean or
nothing) and every telemetry field, the final value of the field is its value
in the last frame that supplied it, or the initial value when no frame did;
and a second sequence holding the same values for that field, whatever it
holds for the others, ends with the same value. -/
theorem mergeFrames_last_write_wins (t0 : String) (frames frames2 : List (JObj × String))
    (key : String) (hk : key ∈ telemetryFields)
    (htel : ∀ fr ∈ frames, telemetryValue (getProp fr.1 key) = true)
    (hsame : frames2.map (fun fr => getProp fr.1 key) = frames.map (fun fr => getProp fr.1 key)) :
    getProp (mergeFrames frames (initialSensorData t0)) key
      = (lastSupplied key frames).getD (getProp (initialSensorData t0) key) ∧
    getProp (mergeFrames frames2 (initialSensorData t0)) key
      = getProp (mergeFrames frames (initialSensorData t0)) key := by
  have hnn : key ∈ nullishFields → ∀ fr ∈ frames, getProp fr.1 key ≠ JVal.null := by
    intro _ fr hfr hnull
    have h := htel fr hfr
    rw [hnull] at h
    simp [telemetryValue] at h
  have h1 := mergeFrames_lastSupplied (initialSensorData t0) frames key hk hnn
  have hnn2 : key ∈ nullishFields → ∀ fr ∈ frames2, getProp fr.1 key ≠ JVal.null := by
    intro h fr hfr hnull
    have hm : getProp fr.1 key ∈ frames2.map (fun fr => getProp fr.1 key) :=
      List.mem_map_of_mem _ hfr
    rw [hsame, List.mem_map] at hm
    obtain ⟨fr1, hfr1, e⟩ := hm
    exact hnn h fr1 hfr1 (e.trans hnull)
  have h2 := mergeFrames_lastSupplied (initialSensorData t0) frames2 key hk hnn2
  refine ⟨h1, ?_⟩
  rw [h1, h2, lastSupplied_eq_values, lastSupplied_eq_values, hsame]

/-- Two frames, the second overwriting the temperature of the first. -/
theorem mergeFrames_last_write_wins_witness :
    getProp (mergeFrames
        [([("humidity", numLit 40), ("temperature", numLit 30)], "t1"),
         ([("temperature", numLit 31)], "t2")] (initialSensorData "t0")) "temperature"
      = (lastSupplied "temperature"
          [([("humidity", numLit 40), ("temperature", numLit 30)], "t1"),
           ([("temperature", numLit 31)], "t2")]).getD
          (getProp (initialSensorData "t0") "temperature") ∧
    getProp (mergeFrames
        [([("temperature", numLit 30)], "t3"),
         ([("temperature", numLit 31), ("pumpStatus", JVal.bool true)], "t4")]
        (initialSensorData "t0")) "temperature"
      = getProp (mergeFrames
        [([("humidity", numLit 40), ("temperature", numLit 30)], "t1"),
         ([("temperature", numLit 31)], "t2")] (initialSensorData "t0")) "temperature" :=
  mergeFrames_last_write_wins "t0"
    [([("humidity", numLit 40), ("temperature", numLit 30)], "t1"),
     ([("temperature", numLit 31)], "t2")]
    [([("temperature", numLit 30)], "t3"),
     ([("temperature", numLit 31), ("pumpStatus", JVal.bool true)], "t4")]
    "temperature" (by simp [telemetryFields])
    (by simp [getProp, numLit, telemetryValue])
    (by simp [getProp])

theorem nullish_undefined (b : JVal) : nullish JVal.undefined b = b := rfl

theorem ifDefined_undefined (b : JVal) : ifDefined JVal.undefined b = b := rfl

/-! ## Frame effect of one merge -/

/-- C3: the merged state returned by the `setSensorData` updater keeps the
prior value of every field that the frame does not contain, `lastUpdated`
apart; `connectionStatus` keeps its prior value whatever the frame contains.
So only fields present in the frame, and `lastUpdated`, can differ from the
prior state. -/
theorem setSensorDataUpdater_retains_absent (frame : JObj) (now : String) (prev : JObj)
    (key : String) (hk : key ≠ "lastUpdated") (habs : ∀ v, (key, v) ∉ frame) :
    getProp (setSensorDataUpdater (JVal.obj frame) now prev) key = getProp prev key ∧
    getProp (setSensorDataUpdater (JVal.obj frame) now prev) "connectionStatus"
      = getProp prev "connectionStatus" := by
  constructor
  · rw [getProp_setSensorDataUpdater, if_neg hk]
    simp only [field, getProp_absent frame key habs, nullish_undefined, ifDefined_undefined]
    split_ifs <;> rfl
  · rw [getProp_setSensorDataUpdater]
    simp [nullishFields, definedFields]

/-- A frame holding only `temperature` leaves `humidity` and
`connectionStatus` as they were. -/
theorem setSensorDataUpdater_retains_absent_witness :
    getProp (setSensorDataUpdater (JVal.obj [("temperature", numLit 30)]) "t1"
        (initialSensorData "t0")) "humidity"
      = getProp (initialSensorData "t0") "humidity" ∧
    getProp (setSensorDataUpdater (JVal.obj [("temperature", numLit 30)]) "t1"
        (initialSensorData "t0")) "connectionStatus"
      = getProp (initialSensorData "t0") "connectionStatus" :=
  setSensorDataUpdater_retains_absent [("temperature", numLit 30)] "t1"
    (initialSensorData "t0") "humidity" (by decide) (by simp)

/-- C4: a frame that supplies `0` for a numeric field, or `false` for
`pumpStatus`, `autoMode` or `espConnected`, is treated as supplying the field:
the merged state holds `0` (respectively `false`), not the prior value. -/
theorem setSensorDataUpdater_zero_false_present (frame : JObj) (now : String) (prev : JObj)
    (key : String) :
    (key ∈ numericFields → getProp frame key = numLit 0 →
      getProp (setSensorDataUpdater (JVal.obj frame) now prev) key = numLit 0) ∧
    (key ∈ booleanFields → getProp frame key = JVal.bool false →
      getProp (setSensorDataUpdater (JVal.obj frame) now prev) key = JVal.bool false) := by
  constructor
  · intro hk hv
    rw [getProp_setSensorDataUpdater]
    simp only [numericFields, List.mem_cons, List.mem_singleton, List.not_mem_nil, or_false] at hk
    rcases hk with h | h | h | h | h | h | h | h | h <;> subst h <;>
      simp [nullishFields, definedFields, field, hv, numLit, nullish, ifDefined]
  · intro hk hv
    rw [getProp_setSensorDataUpdater]
    simp only [booleanFields, List.mem_cons, List.mem_singleton, List.not_mem_nil, or_false] at hk
    rcases hk with h | h | h <;> subst h <;>
      simp [nullishFields, definedFields, field, hv, nullish, ifDefined]

/-- A frame with `soilMoisture: 0` and a frame with `autoMode: false`, merged
into the initial state (where they are 5 and `true`). -/
theorem setSensorDataUpdater_zero_false_present_witness :
    getProp (setSensorDataUpdater (JVal.obj [("soilMoisture", numLit 0)]) "t1"
        (initialSensorData "t0")) "soilMoisture" = numLit 0 ∧
    getProp (setSensorDataUpdater (JVal.obj [("autoMode", JVal.bool false)]) "t1"
        (initialSensorData "t0")) "autoMode" = JVal.bool false :=
  ⟨(setSensorDataUpdater_zero_false_present [("soilMoisture", numLit 0)] "t1"
      (initialSensorData "t0") "soilMoisture").1 (by simp [numericFields]) (by simp [getProp]),
   (setSensorDataUpdater_zero_false_present [("autoMode", JVal.bool false)] "t1"
      (initialSensorData "t0") "autoMode").2 (by simp [booleanFields]) (by simp [getProp])⟩

/-! ## The history buffer -/

theorem length_sliceLast {α : Type} (n : Nat) (xs : List α) :
    (sliceLast n xs).length = min xs.length n := by
  simp only [sliceLast, List.length_drop]
  omega

/-- Taking the last `n` elements before an append does not change the last
`n` elements after it. -/
theorem sliceLast_append_sliceLast {α : Type} (n : Nat) (xs ys : List α) :
    sliceLast n (sliceLast n xs ++ ys) = sliceLast n (xs ++ ys) := by
  simp only [sliceLast, List.length_append, List.length_drop,
    List.drop_append_eq_append_drop, List.drop_drop]
  congr 2 <;> omega

theorem length_setSensorHistoryUpdater (data : JVal) (now : String) (prev : List JObj) :
    (setSensorHistoryUpdater data now prev).length = min (prev.length + 1) 100 := by
  simp [setSensorHistoryUpdater, length_sliceLast]

theorem appendFrames_append (fs : List (JVal × String)) (f : JVal × String) (hist : List JObj) :
    appendFrames (fs ++ [f]) hist = setSensorHistoryUpdater f.1 f.2 (appendFrames fs hist) := by
  simp [appendFrames, List.foldl_append]

theorem appendFrames_eq (frames : List (JVal × String)) (hist : List JObj) :
    appendFrames frames hist
      = sliceLast 100 (hist ++ frames.map (fun fr => historyEntry fr.1 fr.2)) ∨
    (frames = [] ∧ appendFrames frames hist = hist) := by
  induction frames using List.reverseRecOn with
  | nil => exact Or.inr ⟨rfl, rfl⟩
  | append_singleton fs f ih =>
    left
    rw [appendFrames_append]
    rcases ih with ih | ⟨h1, h2⟩
    · rw [ih, setSensorHistoryUpdater, sliceLast_append_sliceLast]
      simp
    · rw [h2, h1, setSensorHistoryUpdater]
      simp

/-- The history component after a sequence of messages: the entries of the
payloads that parse are appended, in order. -/
theorem sensorHistory_onmessages (parse : String → Option JVal) (evs : List Message)
    (st : Dashboard) :
    (onmessages parse evs st).sensorHistory =
      appendFrames (evs.filterMap (fun ev => (parse ev.payload).map (fun d => (d, ev.tHistory))))
        st.sensorHistory := by
  induction evs generalizing st with
  | nil => rfl
  | cons ev rest ih =>
    have e : onmessages parse (ev :: rest) st = onmessages parse rest (onmessage parse ev st) :=
      rfl
    rw [e, ih]
    cases hp : parse ev.payload with
    | none => simp [onmessage, onmessageTry, hp]
    | some d =>
      by_cases ht : tryThrows d <;>
        simp [onmessage, onmessageTry, hp, ht, appendFrames]

/-- C5: the history returned by the `setSensorHistory` updater has length
`min (previous length + 1) 100` (for every prior history, in particular one of
length at most 100), hence at most 100; and the history of every component
state reached from the mount-time state by a sequence of messages has at most
100 entries. -/
theorem sensorHistory_never_exceeds_100 (prev : List JObj) (data : JVal) (now : String)
    (parse : String → Option JVal) (evs : List Message) (t0 : String) :
    (setSensorHistoryUpdater data now prev).length = min (prev.length + 1) 100 ∧
    (setSensorHistoryUpdater data now prev).length ≤ 100 ∧
    (onmessages parse evs (initialDashboard t0)).sensorHistory.length ≤ 100 := by
  refine ⟨length_setSensorHistoryUpdater data now prev, ?_, ?_⟩
  · rw [length_setSensorHistoryUpdater]
    exact min_le_right _ _
  · rw [sensorHistory_onmessages]
    rcases appendFrames_eq
        (evs.filterMap (fun ev => (parse ev.payload).map (fun d => (d, ev.tHistory))))
        (initialDashboard t0).sensorHistory with h | ⟨_, h⟩
    · rw [h, length_sliceLast]
      exact min_le_right _ _
    · rw [h]
      simp [initialDashboard]

/-- C6: history eviction is first in, first out.  After appending the
entries of `k` parsed frames to the empty history, the history consists of the
entries of the last `min k 100` frames in arrival order; after 101 appends it
is the entries of frames 2 to 101 in that order, the first one being gone. -/
theorem sensorHistory_fifo (frames : List (JVal × String)) :
    appendFrames frames [] = (sliceLast 100 frames).map (fun fr => historyEntry fr.1 fr.2) ∧
    (appendFrames frames []).length = min frames.length 100 ∧
    (frames.length = 101 →
      appendFrames frames [] = (frames.drop 1).map (fun fr => historyEntry fr.1 fr.2)) := by
  have h : appendFrames frames []
      = sliceLast 100 (frames.map (fun fr => historyEntry fr.1 fr.2)) := by
    rcases appendFrames_eq frames [] with h | ⟨h1, h2⟩
    · simpa using h
    · subst h1
      rfl
  refine ⟨?_, ?_, ?_⟩
  · rw [h, sliceLast, sliceLast, List.length_map, List.map_drop]
  · rw [h, length_sliceLast, List.length_map]
  · intro h101
    rw [h, sliceLast, List.length_map, h101, List.map_drop]

/-- A sequence of 101 distinct frames. -/
theorem sensorHistory_fifo_witness :
    appendFrames ((List.range 101).map (fun (i : Nat) => (numLit (i : ℚ), toString i))) []
      = (((List.range 101).map (fun (i : Nat) => (numLit (i : ℚ), toString i))).drop 1).map
          (fun fr => historyEntry fr.1 fr.2) :=
  (sensorHistory_fifo ((List.range 101).map (fun (i : Nat) => (numLit (i : ℚ), toString i)))).2.2 (by simp)

/-! ## The example scenario -/

/-- Every property of the state reached in the example scenario. -/
theorem getProp_exampleScenario (t0 t1 t2 : String) (key : String) :
    getProp (exampleScenario t0 t1 t2) key =
      if key = "lastUpdated" then JVal.str t2
      else if key = "temperature" then numLit 34
      else if key = "soilMoisture" then numLit 20
      else getProp (initialSensorData t0) key := by
  simp only [exampleScenario, mergeFrames, List.foldl_cons, List.foldl_nil,
    getProp_setSensorDataUpdater]
  by_cases h0 : key = "lastUpdated"
  · simp [h0]
  by_cases h1 : key = "temperature"
  · subst h1
    simp [nullishFields, field, getProp, nullish, numLit]
  by_cases h2 : key = "soilMoisture"
  · subst h2
    simp [nullishFields, field, getProp, nullish, numLit]
  simp only [if_neg h0, if_neg h1, if_neg h2]
  have e1 : getProp [("temperature", numLit 34)] key = JVal.undefined := by
    simp [getProp, Ne.symm h1]
  have e2 : getProp [("soilMoisture", numLit 20), ("rainIntensity", numLit 0)] key
      = if key = "rainIntensity" then numLit 0 else JVal.undefined := by
    by_cases h3 : key = "rainIntensity"
    · subst h3
      simp [getProp]
    · simp [getProp, Ne.symm h2, Ne.symm h3, h3]
  simp only [field, e1, e2]
  by_cases h3 : key = "rainIntensity"
  · subst h3
    simp [nullishFields, definedFields]
  · simp only [if_neg h3]
    split_ifs <;> rfl

/-- C7: in the example scenario the state has soil moisture 20, rain
intensity (`rainDrop`) 0 and temperature 34, and every other sensor and
actuator field has its `initialSensorData` value.  The updater does not read
the frame key `rainIntensity`: the 0 of `rainDrop` is the initial value. -/
theorem mergeFrames_example_scenario (t0 t1 t2 : String) :
    getProp (exampleScenario t0 t1 t2) "soilMoisture" = numLit 20 ∧
    getProp (exampleScenario t0 t1 t2) "rainDrop" = numLit 0 ∧
    getProp (exampleScenario t0 t1 t2) "temperature" = numLit 34 ∧
    getProp (exampleScenario t0 t1 t2) "humidity" = getProp (initialSensorData t0) "humidity" ∧
    getProp (exampleScenario t0 t1 t2) "soilMoistureRaw"
      = getProp (initialSensorData t0) "soilMoistureRaw" ∧
    getProp (exampleScenario t0 t1 t2) "lightLevel"
      = getProp (initialSensorData t0) "lightLevel" ∧
    getProp (exampleScenario t0 t1 t2) "lightLevelRaw"
      = getProp (initialSensorData t0) "lightLevelRaw" ∧
    getProp (exampleScenario t0 t1 t2) "rainDropRaw"
      = getProp (initialSensorData t0) "rainDropRaw" ∧
    getProp (exampleScenario t0 t1 t2) "pumpStatus"
      = getProp (initialSensorData t0) "pumpStatus" ∧
    getProp (exampleScenario t0 t1 t2) "autoMode" = getProp (initialSensorData t0) "autoMode" ∧
    getProp (exampleScenario t0 t1 t2) "irrigationScore"
      = getProp (initialSensorData t0) "irrigationScore" ∧
    getProp (exampleScenario t0 t1 t2) "espConnected"
      = getProp (initialSensorData t0) "espConnected" := by
  simp only [getProp_exampleScenario]
  simp [initialSensorData, getProp]

/-! ## Field names and independence of raw and normalized fields -/

theorem ifDefined_of_ne (v b : JVal) (hv : v ≠ JVal.undefined) : ifDefined v b = v := by
  cases v <;> simp_all [ifDefined]

/-- C8 (amended): the rain fields are accepted under the names `rainDrop`
and `rainDropRaw` only.  For every prior state and every value `v` of a
telemetry frame, merging the frame with `rainDrop: v` sets `rainDrop` to `v` and merging
the frame with `rainDropRaw: v` sets `rainDropRaw` to `v`, while merging a
frame with `rainIntensity: v` or `rainIntensityRaw: v` leaves `rainDrop` and
`rainDropRaw` at their prior values. -/
theorem setSensorDataUpdater_rain_names (prev : JObj) (now : String) (v : JVal)
    (hv : v ≠ JVal.undefined) :
    getProp (setSensorDataUpdater (JVal.obj [("rainDrop", v)]) now prev) "rainDrop" = v ∧
    getProp (setSensorDataUpdater (JVal.obj [("rainDropRaw", v)]) now prev) "rainDropRaw" = v ∧
    getProp (setSensorDataUpdater (JVal.obj [("rainIntensity", v)]) now prev) "rainDrop"
      = getProp prev "rainDrop" ∧
    getProp (setSensorDataUpdater (JVal.obj [("rainIntensityRaw", v)]) now prev) "rainDropRaw"
      = getProp prev "rainDropRaw" := by
  refine ⟨?_, ?_, ?_, ?_⟩ <;>
    simp [getProp_setSensorDataUpdater, nullishFields, definedFields, field, getProp,
      ifDefined_of_ne v _ hv, ifDefined]

/-- The four frames with the value 50, merged into the initial state. -/
theorem setSensorDataUpdater_rain_names_witness :
    getProp (setSensorDataUpdater (JVal.obj [("rainDrop", numLit 50)]) "t1"
      (initialSensorData "t0")) "rainDrop" = numLit 50 ∧
    getProp (setSensorDataUpdater (JVal.obj [("rainDropRaw", numLit 50)]) "t1"
      (initialSensorData "t0")) "rainDropRaw" = numLit 50 ∧
    getProp (setSensorDataUpdater (JVal.obj [("rainIntensity", numLit 50)]) "t1"
      (initialSensorData "t0")) "rainDrop" = getProp (initialSensorData "t0") "rainDrop" ∧
    getProp (setSensorDataUpdater (JVal.obj [("rainIntensityRaw", numLit 50)]) "t1"
      (initialSensorData "t0")) "rainDropRaw" = getProp (initialSensorData "t0") "rainDropRaw" :=
  setSensorDataUpdater_rain_names (initialSensorData "t0") "t1" (numLit 50) (by simp [numLit])

/-- C8 as stated fails: merged into the initial state, the frame with
`rainIntensity: 50` leaves `rainDrop` at 0 while the frame with `rainDrop: 50`
sets it to 50. -/
theorem rainIntensity_not_accepted :
    getProp (setSensorDataUpdater (JVal.obj [("rainIntensity", numLit 50)]) "t1"
      (initialSensorData "t0")) "rainDrop" = numLit 0 ∧
    getProp (setSensorDataUpdater (JVal.obj [("rainDrop", numLit 50)]) "t1"
      (initialSensorData "t0")) "rainDrop" = numLit 50 ∧
    ¬ (∀ (prev : JObj) (now : String) (v : JVal),
        getProp (setSensorDataUpdater (JVal.obj [("rainIntensity", v)]) now prev) "rainDrop"
          = getProp (setSensorDataUpdater (JVal.obj [("rainDrop", v)]) now prev) "rainDrop" ∧
        getProp (setSensorDataUpdater (JVal.obj [("rainIntensityRaw", v)]) now prev) "rainDropRaw"
          = getProp (setSensorDataUpdater (JVal.obj [("rainDropRaw", v)]) now prev)
              "rainDropRaw") := by
  have h1 : getProp (setSensorDataUpdater (JVal.obj [("rainIntensity", numLit 50)]) "t1"
      (initialSensorData "t0")) "rainDrop" = numLit 0 := by
    simp [getProp_setSensorDataUpdater, nullishFields, definedFields, field, getProp, ifDefined,
      initialSensorData]
  have h2 : getProp (setSensorDataUpdater (JVal.obj [("rainDrop", numLit 50)]) "t1"
      (initialSensorData "t0")) "rainDrop" = numLit 50 := by
    simp [getProp_setSensorDataUpdater, nullishFields, definedFields, field, getProp, ifDefined,
      numLit]
  refine ⟨h1, h2, fun h => ?_⟩
  have h3 := (h (initialSensorData "t0") "t1" (numLit 50)).1
  rw [h1, h2] at h3
  simp [numLit] at h3

/-- C9: the merge never infers a normalized field from its raw counterpart
or the reverse.  For each of `soilMoisture`, `lightLevel`, `rainDrop` and their
raw counterparts, two frames that hold the same value for that field give the
same merged value for it, whatever else they hold (a different raw or
normalized counterpart included). -/
theorem setSensorDataUpdater_raw_normalized_independent (prev : JObj) (now1 now2 : String)
    (frame1 frame2 : JObj) (key : String)
    (hk : key ∈ ["soilMoisture", "lightLevel", "rainDrop", "soilMoistureRaw", "lightLevelRaw",
      "rainDropRaw"])
    (hagree : getProp frame1 key = getProp frame2 key) :
    getProp (setSensorDataUpdater (JVal.obj frame1) now1 prev) key
      = getProp (setSensorDataUpdater (JVal.obj frame2) now2 prev) key := by
  have hk2 : key ≠ "lastUpdated" := by
    simp only [List.mem_cons, List.mem_singleton, List.not_mem_nil, or_false] at hk
    rcases hk with h | h | h | h | h | h <;> subst h <;> decide
  simp only [getProp_setSensorDataUpdater, if_neg hk2, field, hagree]

/-- Two frames with the same `soilMoisture` and different `soilMoistureRaw`. -/
theorem setSensorDataUpdater_raw_normalized_independent_witness :
    getProp (setSensorDataUpdater
        (JVal.obj [("soilMoisture", numLit 40), ("soilMoistureRaw", numLit 1000)]) "t1"
        (initialSensorData "t0")) "soilMoisture"
      = getProp (setSensorDataUpdater
        (JVal.obj [("soilMoisture", numLit 40), ("soilMoistureRaw", numLit 2500)]) "t2"
        (initialSensorData "t0")) "soilMoisture" :=
  setSensorDataUpdater_raw_normalized_independent (initialSensorData "t0") "t1" "t2"
    [("soilMoisture", numLit 40), ("soilMoistureRaw", numLit 1000)]
    [("soilMoisture", numLit 40), ("soilMoistureRaw", numLit 2500)] "soilMoisture"
    (by simp) (by simp [getProp])

/-! ## Malformed payloads -/

/-- C10: when the payload is not parseable as JSON, the handler returns
normally (the SyntaxError raised in the `try` block is consumed by the `catch`
clause) and leaves the whole component state, `lastUpdated` and the history
included, exactly as it was. -/
theorem onmessage_malformed_payload (parse : String → Option JVal) (ev : Message)
    (st : Dashboard) (h : parse ev.payload = none) :
    onmessage parse ev st = st ∧
    (onmessageTry parse ev st).2 = some JsError.syntaxError := by
  simp [onmessage, onmessageTry, h]

/-- The payload `hello` is not JSON. -/
theorem onmessage_malformed_payload_witness :
    onmessage parseExample ⟨"hello", "t1", "t2"⟩ (initialDashboard "t0")
      = initialDashboard "t0" ∧
    (onmessageTry parseExample ⟨"hello", "t1", "t2"⟩ (initialDashboard "t0")).2
      = some JsError.syntaxError :=
  onmessage_malformed_payload parseExample ⟨"hello", "t1", "t2"⟩ (initialDashboard "t0")
    (by simp [parseExample])

/-! ## Payloads that parse but are not records -/

/-- On a value that is not a record every property read of the updater gives
`undefined`. -/
theorem field_of_not_record (data : JVal) (key : String) (h : isRecord data = false) :
    field data key = JVal.undefined := by
  cases data <;> simp_all [field, isRecord]

/-- A merge in which the frame supplies nothing: only `lastUpdated` changes. -/
theorem getProp_merge_of_not_record (data : JVal) (now : String) (prev : JObj) (key : String)
    (h : isRecord data = false) (hk : key ≠ "lastUpdated") :
    getProp (setSensorDataUpdater data now prev) key = getProp prev key := by
  rw [getProp_setSensorDataUpdater, if_neg hk, field_of_not_record data key h]
  simp only [nullish_undefined, ifDefined_undefined]
  split_ifs <;> rfl

/-- When the three fields read in lines 215-223 are absent, only the property
read itself can raise. -/
theorem tryThrows_of_absent (data : JVal) (h1 : field data "soilMoisture" = JVal.undefined)
    (h2 : field data "lightLevel" = JVal.undefined)
    (h3 : field data "humidity" = JVal.undefined) :
    tryThrows data = readThrows data := by
  simp [tryThrows, h1, h2, h3, convThrows]

/-- The two components of the state after the handler has run on a payload
that parses. -/
theorem onmessage_parsed (parse : String → Option JVal) (ev : Message) (st : Dashboard)
    (data : JVal) (hp : parse ev.payload = some data) :
    (onmessage parse ev st).sensorHistory
      = setSensorHistoryUpdater data ev.tHistory st.sensorHistory ∧
    (onmessage parse ev st).sensorData
      = if tryThrows data then st.sensorData
        else setSensorDataUpdater data ev.tState st.sensorData := by
  by_cases ht : tryThrows data <;> simp [onmessage, onmessageTry, hp, ht]

/-- C11 (amended): when the payload parses as JSON to a value that is not a
record (a number, a string, a boolean, `null` or an array), the handler keeps
every field of the sensor state other than `lastUpdated`, but it appends the
entry of the value to the history (keeping the last 100), and for a number, a
string, a boolean or an array it sets `lastUpdated` to the clock reading of
the merge. -/
theorem onmessage_non_record (parse : String → Option JVal) (ev : Message) (st : Dashboard)
    (data : JVal) (key : String) (hp : parse ev.payload = some data)
    (hrec : isRecord data = false) (hk : key ≠ "lastUpdated") :
    getProp (onmessage parse ev st).sensorData key = getProp st.sensorData key ∧
    (onmessage parse ev st).sensorHistory
      = sliceLast 100 (st.sensorHistory ++ [historyEntry data ev.tHistory]) ∧
    (readThrows data = false →
      getProp (onmessage parse ev st).sensorData "lastUpdated" = JVal.str ev.tState) := by
  obtain ⟨h1, h2⟩ := onmessage_parsed parse ev st data hp
  rw [tryThrows_of_absent data (field_of_not_record data _ hrec)
    (field_of_not_record data _ hrec) (field_of_not_record data _ hrec)] at h2
  refine ⟨?_, ?_, ?_⟩
  · rw [h2]
    by_cases ht : readThrows data
    · simp [ht]
    · simp only [ht]
      exact getProp_merge_of_not_record data ev.tState st.sensorData key hrec hk
  · rw [h1]
    rfl
  · intro ht
    rw [h2]
    simp [ht, getProp_setSensorDataUpdater]

/-- The payload `true` handled in the mount-time state. -/
theorem onmessage_non_record_witness :
    getProp (onmessage parseExample ⟨"true", "t1", "t2"⟩ (initialDashboard "t0")).sensorData
        "temperature"
      = getProp (initialDashboard "t0").sensorData "temperature" ∧
    (onmessage parseExample ⟨"true", "t1", "t2"⟩ (initialDashboard "t0")).sensorHistory
      = sliceLast 100 ((initialDashboard "t0").sensorHistory
          ++ [historyEntry (JVal.bool true) "t1"]) ∧
    getProp (onmessage parseExample ⟨"true", "t1", "t2"⟩ (initialDashboard "t0")).sensorData
      "lastUpdated" = JVal.str "t2" :=
  ⟨(onmessage_non_record parseExample ⟨"true", "t1", "t2"⟩ (initialDashboard "t0")
      (JVal.bool true) "temperature" (by simp [parseExample]) (by simp [isRecord])
      (by decide)).1,
   (onmessage_non_record parseExample ⟨"true", "t1", "t2"⟩ (initialDashboard "t0")
      (JVal.bool true) "temperature" (by simp [parseExample]) (by simp [isRecord])
      (by decide)).2.1,
   (onmessage_non_record parseExample ⟨"true", "t1", "t2"⟩ (initialDashboard "t0")
      (JVal.bool true) "temperature" (by simp [parseExample]) (by simp [isRecord])
      (by decide)).2.2 rfl⟩

/-- C11 as stated fails: the payload `true` parses to a boolean, yet the
handler sets `lastUpdated` (from the clock reading `t0` to `t2`) and appends an
entry to the empty history; the payload `null` also appends an entry. -/
theorem onmessage_non_record_alters_state :
    parseExample "true" = some (JVal.bool true) ∧
    getProp (onmessage parseExample ⟨"true", "t1", "t2"⟩ (initialDashboard "t0")).sensorData
      "lastUpdated" = JVal.str "t2" ∧
    getProp (initialDashboard "t0").sensorData "lastUpdated" = JVal.str "t0" ∧
    (onmessage parseExample ⟨"true", "t1", "t2"⟩ (initialDashboard "t0")).sensorHistory
      = [[("timestamp", JVal.str "t1")]] ∧
    (onmessage parseExample ⟨"null", "t1", "t2"⟩ (initialDashboard "t0")).sensorHistory
      = [[("timestamp", JVal.str "t1")]] ∧
    ¬ (∀ (parse : String → Option JVal) (ev : Message) (st : Dashboard) (data : JVal),
        parse ev.payload = some data → isRecord data = false →
        onmessage parse ev st = st) := by
  have hp : parseExample "true" = some (JVal.bool true) := by simp [parseExample]
  have hn : parseExample "null" = some JVal.null := by simp [parseExample]
  have h1 := onmessage_parsed parseExample ⟨"true", "t1", "t2"⟩ (initialDashboard "t0") _ hp
  have h2 := onmessage_parsed parseExample ⟨"null", "t1", "t2"⟩ (initialDashboard "t0") _ hn
  have e1 : (onmessage parseExample ⟨"true", "t1", "t2"⟩ (initialDashboard "t0")).sensorHistory
      = [[("timestamp", JVal.str "t1")]] := by
    rw [h1.1]
    simp [setSensorHistoryUpdater, sliceLast, historyEntry, spread, setProp, initialDashboard]
  have e2 : (onmessage parseExample ⟨"null", "t1", "t2"⟩ (initialDashboard "t0")).sensorHistory
      = [[("timestamp", JVal.str "t1")]] := by
    rw [h2.1]
    simp [setSensorHistoryUpdater, sliceLast, historyEntry, spread, setProp, initialDashboard]
  refine ⟨hp, ?_, ?_, e1, e2, fun h => ?_⟩
  · rw [h1.2]
    simp [tryThrows, readThrows, field, commandFrame, getProp, convThrows,
      getProp_setSensorDataUpdater]
  · simp [initialDashboard, initialSensorData, getProp]
  · have h3 := h parseExample ⟨"true", "t1", "t2"⟩ (initialDashboard "t0") (JVal.bool true) hp
      (by simp [isRecord])
    have h4 := congrArg Dashboard.sensorHistory h3
    rw [e1] at h4
    simp [initialDashboard] at h4

/-! ## The irrigation decision depends on the score only -/

/-- C12: the irrigation decision is a function of the state's
`irrigationScore` alone.  Two states with the same `irrigationScore` give the
same result (status, colours and description), whatever their other fields
are; with the same state on both sides, evaluating twice gives the same
result. -/
theorem getIrrigationStatus_pure (conv : JVal → JNum) (s1 s2 : JObj)
    (h : getProp s1 "irrigationScore" = getProp s2 "irrigationScore") :
    getIrrigationStatus conv s1 = getIrrigationStatus conv s2 := by
  simp only [getIrrigationStatus, h]

/-- Two states with score 7 that differ in every other field. -/
theorem getIrrigationStatus_pure_witness :
    getIrrigationStatus (fun _ => JNum.nan)
        [("temperature", numLit 30), ("irrigationScore", numLit 7), ("autoMode", JVal.bool true)]
      = getIrrigationStatus (fun _ => JNum.nan)
        [("irrigationScore", numLit 7), ("rainDrop", numLit 80)] :=
  getIrrigationStatus_pure (fun _ => JNum.nan)
    [("temperature", numLit 30), ("irrigationScore", numLit 7), ("autoMode", JVal.bool true)]
    [("irrigationScore", numLit 7), ("rainDrop", numLit 80)] (by simp [getProp])

/-! ## History entries and the merged state -/

theorem getLast?_sliceLast_append {α : Type} (n : Nat) (xs : List α) (e : α) (hn : 0 < n) :
    (sliceLast n (xs ++ [e])).getLast? = some e := by
  have h : sliceLast n (xs ++ [e]) = List.drop (xs.length + 1 - n) xs ++ [e] := by
    simp only [sliceLast, List.length_append, List.length_singleton]
    rw [List.drop_append_of_le_length (by omega)]
  rw [h]
  simp

theorem getProp_historyEntry (data : JVal) (now : String) (key : String)
    (hk : key ≠ "timestamp") :
    getProp (historyEntry data now) key = getProp (spread data) key := by
  rw [historyEntry, getProp_setProp, if_neg (fun e => hk e.symm)]

theorem nullish_of_ne (v b : JVal) (h1 : v ≠ JVal.undefined) (h2 : v ≠ JVal.null) :
    nullish v b = v := by
  cases v <;> simp_all [nullish]

/-- C13 (amended): every history entry holds the raw frame.  The entry
appended for a JSON-object frame is the last entry of the new history and
carries, for every telemetry field, the frame's own value (nothing when the
frame omits the field, not the retained prior value); it agrees with the
merged sensor state on every telemetry field that the frame supplies with a
value other than `null`. -/
theorem historyEntry_holds_raw_frame (frame : JObj) (tH tS : String) (prev : JObj)
    (hist : List JObj) (key : String) (hk : key ∈ telemetryFields) :
    (setSensorHistoryUpdater (JVal.obj frame) tH hist).getLast?
      = some (historyEntry (JVal.obj frame) tH) ∧
    getProp (historyEntry (JVal.obj frame) tH) key = getProp frame key ∧
    (getProp frame key ≠ JVal.undefined → getProp frame key ≠ JVal.null →
      getProp (historyEntry (JVal.obj frame) tH) key
        = getProp (setSensorDataUpdater (JVal.obj frame) tS prev) key) := by
  have hts : key ≠ "timestamp" := by
    simp only [telemetryFields, List.mem_cons, List.mem_singleton, List.not_mem_nil,
      or_false] at hk
    rcases hk with h | h | h | h | h | h | h | h | h | h | h | h <;> subst h <;> decide
  have h2 : getProp (historyEntry (JVal.obj frame) tH) key = getProp frame key := by
    rw [getProp_historyEntry _ _ _ hts]
    rfl
  refine ⟨?_, h2, fun h3 h4 => ?_⟩
  · exact getLast?_sliceLast_append 100 hist _ (by decide)
  · rw [h2, getProp_merge_telemetry _ _ _ _ hk, nullish_of_ne _ _ h3 h4, ifDefined_of_ne _ _ h3]
    simp

/-- The frame holding `temperature: 30`. -/
theorem historyEntry_holds_raw_frame_witness :
    (setSensorHistoryUpdater (JVal.obj [("temperature", numLit 30)]) "t1" []).getLast?
      = some (historyEntry (JVal.obj [("temperature", numLit 30)]) "t1") ∧
    getProp (historyEntry (JVal.obj [("temperature", numLit 30)]) "t1") "temperature"
      = getProp [("temperature", numLit 30)] "temperature" ∧
    getProp (historyEntry (JVal.obj [("temperature", numLit 30)]) "t1") "temperature"
      = getProp (setSensorDataUpdater (JVal.obj [("temperature", numLit 30)]) "t2"
          (initialSensorData "t0")) "temperature" :=
  ⟨(historyEntry_holds_raw_frame [("temperature", numLit 30)] "t1" "t2" (initialSensorData "t0")
      [] "temperature" (by simp [telemetryFields])).1,
   (historyEntry_holds_raw_frame [("temperature", numLit 30)] "t1" "t2" (initialSensorData "t0")
      [] "temperature" (by simp [telemetryFields])).2.1,
   (historyEntry_holds_raw_frame [("temperature", numLit 30)] "t1" "t2" (initialSensorData "t0")
      [] "temperature" (by simp [telemetryFields])).2.2
      (by simp [getProp, numLit]) (by simp [getProp, numLit])⟩

/-- C13 as stated fails: for the frame holding only `temperature: 30` merged
into the initial state, the history entry has no `humidity` while the merged
state holds the retained 65. -/
theorem historyEntry_omits_retained_fields :
    getProp (historyEntry (JVal.obj [("temperature", numLit 30)]) "t1") "humidity"
      = JVal.undefined ∧
    getProp (setSensorDataUpdater (JVal.obj [("temperature", numLit 30)]) "t2"
      (initialSensorData "t0")) "humidity" = numLit 65 ∧
    ¬ (∀ (frame : JObj) (tH tS : String) (prev : JObj) (key : String),
        key ∈ telemetryFields →
        getProp (historyEntry (JVal.obj frame) tH) key
          = getProp (setSensorDataUpdater (JVal.obj frame) tS prev) key) := by
  have h1 : getProp (historyEntry (JVal.obj [("temperature", numLit 30)]) "t1") "humidity"
      = JVal.undefined := by
    rw [getProp_historyEntry _ _ _ (by decide)]
    simp [spread, getProp]
  have h2 : getProp (setSensorDataUpdater (JVal.obj [("temperature", numLit 30)]) "t2"
      (initialSensorData "t0")) "humidity" = numLit 65 := by
    simp [getProp_setSensorDataUpdater, nullishFields, definedFields, field, getProp, ifDefined,
      initialSensorData]
  refine ⟨h1, h2, fun h => ?_⟩
  have h3 := h [("temperature", numLit 30)] "t1" "t2" (initialSensorData "t0") "humidity"
    (by simp [telemetryFields])
  rw [h1, h2] at h3
  simp [numLit] at h3

/-! ## The producer-connected flag and the merge time -/

/-- C14 (amended): the merge does not set `espConnected` itself.  The merged
`espConnected` is the frame's value when the frame supplies one other than
`null`, and the prior value otherwise. -/
theorem espConnected_follows_frame (frame : JObj) (now : String) (prev : JObj) :
    (getProp frame "espConnected" ≠ JVal.undefined → getProp frame "espConnected" ≠ JVal.null →
      getProp (setSensorDataUpdater (JVal.obj frame) now prev) "espConnected"
        = getProp frame "espConnected") ∧
    (getProp frame "espConnected" = JVal.undefined ∨ getProp frame "espConnected" = JVal.null →
      getProp (setSensorDataUpdater (JVal.obj frame) now prev) "espConnected"
        = getProp prev "espConnected") := by
  have h : getProp (setSensorDataUpdater (JVal.obj frame) now prev) "espConnected"
      = nullish (getProp frame "espConnected") (getProp prev "espConnected") := by
    rw [getProp_merge_telemetry _ _ _ _ (by simp [telemetryFields])]
    simp [nullishFields]
  rw [h]
  refine ⟨fun h1 h2 => nullish_of_ne _ _ h1 h2, fun h1 => ?_⟩
  rcases h1 with h1 | h1 <;> rw [h1] <;> rfl

/-- A frame with `espConnected: true` and a frame without the field. -/
theorem espConnected_follows_frame_witness :
    getProp (setSensorDataUpdater (JVal.obj [("espConnected", JVal.bool true)]) "t1"
      (initialSensorData "t0")) "espConnected"
      = getProp [("espConnected", JVal.bool true)] "espConnected" ∧
    getProp (setSensorDataUpdater (JVal.obj [("temperature", numLit 30)]) "t1"
      (initialSensorData "t0")) "espConnected"
      = getProp (initialSensorData "t0") "espConnected" :=
  ⟨(espConnected_follows_frame [("espConnected", JVal.bool true)] "t1"
      (initialSensorData "t0")).1 (by simp [getProp]) (by simp [getProp]),
   (espConnected_follows_frame [("temperature", numLit 30)] "t1"
      (initialSensorData "t0")).2 (Or.inl (by simp [getProp]))⟩

/-- C14 as stated fails: merging the frame holding only `temperature: 30`
into the initial state leaves `espConnected` at `false`. -/
theorem espConnected_not_set_by_merge :
    getProp (setSensorDataUpdater (JVal.obj [("temperature", numLit 30)]) "t1"
      (initialSensorData "t0")) "espConnected" = JVal.bool false ∧
    ¬ (∀ (frame : JObj) (now : String) (prev : JObj),
        getProp (setSensorDataUpdater (JVal.obj frame) now prev) "espConnected"
          = JVal.bool true) := by
  have h1 : getProp (setSensorDataUpdater (JVal.obj [("temperature", numLit 30)]) "t1"
      (initialSensorData "t0")) "espConnected" = JVal.bool false := by
    simp [getProp_setSensorDataUpdater, nullishFields, field, getProp, nullish,
      initialSensorData]
  refine ⟨h1, fun h => ?_⟩
  have h3 := h [("temperature", numLit 30)] "t1" (initialSensorData "t0")
  rw [h1] at h3
  simp at h3

/-- C15: the merged state's `lastUpdated` is the clock reading of the merge,
whatever the frame contains; a `lastUpdated` in the frame is overwritten and a
`timestamp` in the frame does not enter the state. -/
theorem lastUpdated_is_merge_time (frame : JObj) (now : String) (prev : JObj) :
    getProp (setSensorDataUpdater (JVal.obj frame) now prev) "lastUpdated" = JVal.str now ∧
    getProp (setSensorDataUpdater (JVal.obj frame) now prev) "timestamp"
      = getProp prev "timestamp" := by
  constructor <;> simp [getProp_setSensorDataUpdater, nullishFields, definedFields]

/-! ## The relay server -/

theorem foldl_send_eq (data : String) (clients : List Client) (acc : List (Nat × String)) :
    clients.foldl
      (fun sent client =>
        if client.readyState = ReadyState.OPEN then sent ++ [(client.id, data)] else sent) acc
      = acc ++ (clients.filter (fun client => client.readyState = ReadyState.OPEN)).map
          (fun client => (client.id, data)) := by
  induction clients generalizing acc with
  | nil => simp
  | cons c rest ih =>
    by_cases h : c.readyState = ReadyState.OPEN <;> simp [List.foldl_cons, ih, h]

/-- The sends of the broadcast loop: one per client whose `readyState` is
OPEN, in iteration order, all with the decoded text. -/
theorem onServerMessage_buffer (utf8 : List Nat → String) (clients : List Client)
    (bytes : List Nat) :
    onServerMessage utf8 clients (WsData.buffer bytes)
      = (clients.filter (fun client => client.readyState = ReadyState.OPEN)).map
          (fun client => (client.id, utf8 bytes)) := by
  simp [onServerMessage, foldl_send_eq]

/-- No send goes to a connection that is not in the set. -/
theorem sends_to_stranger (data : String) (clients : List Client) (n : Nat)
    (h : n ∉ clients.map Client.id) :
    (((clients.filter (fun client => client.readyState = ReadyState.OPEN)).map
      (fun client => (client.id, data))).filter (fun s => s.1 = n)) = [] := by
  rw [List.filter_eq_nil_iff]
  intro s hs
  simp only [List.mem_map, List.mem_filter] at hs
  obtain ⟨d, ⟨hd, _⟩, rfl⟩ := hs
  have : d.id ≠ n := fun e => h (e ▸ List.mem_map_of_mem _ hd)
  simpa using this

theorem sends_to_member (data : String) (clients : List Client) (c : Client)
    (hset : (clients.map Client.id).Nodup) (hc : c ∈ clients) :
    (((clients.filter (fun client => client.readyState = ReadyState.OPEN)).map
      (fun client => (client.id, data))).filter (fun s => s.1 = c.id))
      = (if c.readyState = ReadyState.OPEN then [(c.id, data)] else []) := by
  induction clients with
  | nil => cases hc
  | cons a rest ih =>
    rw [List.map_cons, List.nodup_cons] at hset
    obtain ⟨ha, hrest⟩ := hset
    rcases List.mem_cons.mp hc with h | h
    · subst h
      have h0 := sends_to_stranger data rest c.id ha
      by_cases ho : c.readyState = ReadyState.OPEN
      · simp [List.filter_cons, ho, h0]
      · simp [List.filter_cons, ho, h0]
    · have hne : a.id ≠ c.id := fun e => ha (e ▸ List.mem_map_of_mem _ h)
      have ih2 := ih hrest h
      by_cases ho : a.readyState = ReadyState.OPEN
      · simp [List.filter_cons, ho, hne, ih2]
      · simp [List.filter_cons, ho, ih2]

/-- C16: for every set of client connections (distinct `id`s) and every
inbound Buffer message, the handler sends the UTF-8 text of the message
exactly once to every client whose `readyState` is OPEN and nothing to a client
that is not OPEN; every send carries the same payload and goes to an OPEN
client of the set.  The sender is one of the clients and is treated like the
others. -/
theorem broadcast_once_to_every_open_client (utf8 : List Nat → String) (clients : List Client)
    (bytes : List Nat) (c : Client) (hset : (clients.map Client.id).Nodup) (hc : c ∈ clients) :
    ((onServerMessage utf8 clients (WsData.buffer bytes)).filter (fun s => s.1 = c.id))
      = (if c.readyState = ReadyState.OPEN then [(c.id, utf8 bytes)] else []) ∧
    (∀ s ∈ onServerMessage utf8 clients (WsData.buffer bytes),
      s.2 = utf8 bytes ∧
      ∃ d ∈ clients, d.id = s.1 ∧ d.readyState = ReadyState.OPEN) := by
  rw [onServerMessage_buffer]
  constructor
  · exact sends_to_member (utf8 bytes) clients c hset hc
  · intro s hs
    simp only [List.mem_map, List.mem_filter, decide_eq_true_eq] at hs
    obtain ⟨d, ⟨hd, ho⟩, rfl⟩ := hs
    exact ⟨rfl, d, hd, rfl, ho⟩

/-- Three clients, the second one closing; the sends to the third. -/
theorem broadcast_once_to_every_open_client_witness :
    ((onServerMessage decodeAscii
        [⟨1, ReadyState.OPEN⟩, ⟨2, ReadyState.CLOSING⟩, ⟨3, ReadyState.OPEN⟩]
        (WsData.buffer [104, 105])).filter (fun s => s.1 = 3))
      = (if (Client.mk 3 ReadyState.OPEN).readyState = ReadyState.OPEN
          then [(3, decodeAscii [104, 105])] else []) ∧
    (∀ s ∈ onServerMessage decodeAscii
        [⟨1, ReadyState.OPEN⟩, ⟨2, ReadyState.CLOSING⟩, ⟨3, ReadyState.OPEN⟩]
        (WsData.buffer [104, 105]),
      s.2 = decodeAscii [104, 105] ∧
      ∃ d ∈ [Client.mk 1 ReadyState.OPEN, ⟨2, ReadyState.CLOSING⟩, ⟨3, ReadyState.OPEN⟩],
        d.id = s.1 ∧ d.readyState = ReadyState.OPEN) :=
  broadcast_once_to_every_open_client decodeAscii
    [⟨1, ReadyState.OPEN⟩, ⟨2, ReadyState.CLOSING⟩, ⟨3, ReadyState.OPEN⟩] [104, 105]
    ⟨3, ReadyState.OPEN⟩ (by decide) (by decide)

/-- C17 (amended): the relay does not inspect payloads.  The handler sends to
no client exactly when the message is not a Buffer or no client is OPEN; every
Buffer message, whether or not its text parses as a structured record, is sent
as its text to every OPEN client. -/
theorem relay_does_not_inspect_payload (utf8 : List Nat → String) (clients : List Client)
    (message : WsData) (bytes : List Nat) :
    (onServerMessage utf8 clients message = [] ↔
      (message = WsData.other ∨ ∀ c ∈ clients, c.readyState ≠ ReadyState.OPEN)) ∧
    onServerMessage utf8 clients (WsData.buffer bytes)
      = (clients.filter (fun client => client.readyState = ReadyState.OPEN)).map
          (fun client => (client.id, utf8 bytes)) := by
  constructor
  · cases message with
    | other => simp [onServerMessage]
    | buffer bytes =>
      rw [onServerMessage_buffer]
      simp [List.filter_eq_nil_iff]
  · rw [onServerMessage_buffer]

/-- C17 as stated fails: the Buffer with the text `hello`, which is not JSON,
is sent to the one OPEN client. -/
theorem relay_forwards_malformed_payload :
    decodeAscii [104, 101, 108, 108, 111] = "hello" ∧
    parseExample "hello" = none ∧
    onServerMessage decodeAscii [⟨1, ReadyState.OPEN⟩]
      (WsData.buffer [104, 101, 108, 108, 111]) = [(1, "hello")] ∧
    ¬ (∀ (utf8 : List Nat → String) (parse : String → Option JVal) (clients : List Client)
        (bytes : List Nat),
        (∀ props, parse (utf8 bytes) ≠ some (JVal.obj props)) →
        onServerMessage utf8 clients (WsData.buffer bytes) = []) := by
  have h1 : decodeAscii [104, 101, 108, 108, 111] = "hello" := by decide
  have h2 : parseExample "hello" = none := by simp [parseExample]
  have h3 : onServerMessage decodeAscii [⟨1, ReadyState.OPEN⟩]
      (WsData.buffer [104, 101, 108, 108, 111]) = [(1, "hello")] := by
    rw [onServerMessage_buffer, h1]
    simp
  refine ⟨h1, h2, h3, fun h => ?_⟩
  have h4 := h decodeAscii parseExample [⟨1, ReadyState.OPEN⟩] [104, 101, 108, 108, 111]
    (by rw [h1, h2]; simp)
  rw [h3] at h4
  simp at h4

/-- C18 (amended): every frame the server sends in response to an inbound
Buffer frame is the text of that frame, unchanged: it carries a field exactly
when the inbound frame carries it. -/
theorem relay_forwards_frame_unchanged (utf8 : List Nat → String)
    (parse : String → Option JVal) (clients : List Client) (bytes : List Nat)
    (s : Nat × String) (key : String)
    (hs : s ∈ onServerMessage utf8 clients (WsData.buffer bytes)) :
    s.2 = utf8 bytes ∧ carries parse s.2 key = carries parse (utf8 bytes) key := by
  rw [onServerMessage_buffer] at hs
  simp only [List.mem_map, List.mem_filter] at hs
  obtain ⟨d, _, rfl⟩ := hs
  exact ⟨rfl, rfl⟩

/-- The text `hi` relayed to one OPEN client. -/
theorem relay_forwards_frame_unchanged_witness :
    ((1, "hi") : Nat × String).2 = decodeAscii [104, 105] ∧
    carries parseFrameExample ((1, "hi") : Nat × String).2 "humidity"
      = carries parseFrameExample (decodeAscii [104, 105]) "humidity" :=
  relay_forwards_frame_unchanged decodeAscii parseFrameExample [⟨1, ReadyState.OPEN⟩]
    [104, 105] (1, "hi") "humidity" (by decide)

/-- C18 as stated fails: the inbound frame holding only `temperature: 30` is
sent on as it is, so the frame sent carries `temperature` and no `humidity`. -/
theorem relay_does_not_complete_frames :
    decodeAscii [123, 34, 116, 101, 109, 112, 101, 114, 97, 116, 117, 114, 101, 34, 58, 51, 48,
      125] = "\x7b\"temperature\":30\x7d" ∧
    onServerMessage decodeAscii [⟨1, ReadyState.OPEN⟩]
      (WsData.buffer [123, 34, 116, 101, 109, 112, 101, 114, 97, 116, 117, 114, 101, 34, 58, 51,
        48, 125]) = [(1, "\x7b\"temperature\":30\x7d")] ∧
    carries parseFrameExample "\x7b\"temperature\":30\x7d" "temperature" = true ∧
    carries parseFrameExample "\x7b\"temperature\":30\x7d" "humidity" = false ∧
    ¬ (∀ (utf8 : List Nat → String) (parse : String → Option JVal) (clients : List Client)
        (bytes : List Nat) (s : Nat × String) (key : String),
        s ∈ onServerMessage utf8 clients (WsData.buffer bytes) → key ∈ telemetryFields →
        carries parse s.2 key = true) := by
  have h1 : decodeAscii [123, 34, 116, 101, 109, 112, 101, 114, 97, 116, 117, 114, 101, 34, 58,
      51, 48, 125] = "\x7b\"temperature\":30\x7d" := by decide
  have h2 : onServerMessage decodeAscii [⟨1, ReadyState.OPEN⟩]
      (WsData.buffer [123, 34, 116, 101, 109, 112, 101, 114, 97, 116, 117, 114, 101, 34, 58, 51,
        48, 125]) = [(1, "\x7b\"temperature\":30\x7d")] := by
    rw [onServerMessage_buffer, h1]
    simp
  have h3 : carries parseFrameExample "\x7b\"temperature\":30\x7d" "temperature" = true := by
    simp [carries, parseFrameExample, getProp, isUndefined, numLit]
  have h4 : carries parseFrameExample "\x7b\"temperature\":30\x7d" "humidity" = false := by
    simp [carries, parseFrameExample, getProp, isUndefined]
  refine ⟨h1, h2, h3, h4, fun h => ?_⟩
  have h5 := h decodeAscii parseFrameExample [⟨1, ReadyState.OPEN⟩] _
    (1, "\x7b\"temperature\":30\x7d") "humidity" (by rw [h2]; simp) (by simp [telemetryFields])
  rw [h4] at h5
  simp at h5

/-! ## Command frames received by the dashboard -/

/-- A command frame supplies no telemetry field. -/
theorem field_commandFrame (c : String) (key : String) (h1 : key ≠ "type")
    (h2 : key ≠ "command") :
    field (JVal.obj (commandFrame c)) key = JVal.undefined := by
  simp [field, commandFrame, getProp, Ne.symm h1, Ne.symm h2]

theorem getProp_merge_commandFrame (c now : String) (prev : JObj) (key : String)
    (hk : key ≠ "lastUpdated") :
    getProp (setSensorDataUpdater (JVal.obj (commandFrame c)) now prev) key
      = getProp prev key := by
  rw [getProp_setSensorDataUpdater, if_neg hk]
  by_cases h1 : key ∈ nullishFields
  · have h3 : key ≠ "type" ∧ key ≠ "command" := by
      simp only [nullishFields, List.mem_cons, List.mem_singleton, List.not_mem_nil,
        or_false] at h1
      rcases h1 with h | h | h | h | h <;> subst h <;> decide
    rw [if_pos h1, field_commandFrame c key h3.1 h3.2]
    rfl
  · rw [if_neg h1]
    by_cases h2 : key ∈ definedFields
    · have h3 : key ≠ "type" ∧ key ≠ "command" := by
        simp only [definedFields, List.mem_cons, List.mem_singleton, List.not_mem_nil,
          or_false] at h2
        rcases h2 with h | h | h | h | h | h | h <;> subst h <;> decide
      rw [if_pos h2, field_commandFrame c key h3.1 h3.2]
      rfl
    · rw [if_neg h2]

/-- C19 (amended): handling a command frame with `type: "control-command"`
and a command string `c` (an unrecognized one in particular) leaves every
field of the sensor state other than `lastUpdated` unchanged; `lastUpdated` is
set to the clock reading of the merge, and the entry of the frame (its `type`,
its `command` and the timestamp) is appended to the history, of which the last
100 entries are kept. -/
theorem onmessage_command_frame (parse : String → Option JVal) (ev : Message) (st : Dashboard)
    (c : String) (key : String) (hp : parse ev.payload = some (JVal.obj (commandFrame c)))
    (hk : key ≠ "lastUpdated") :
    getProp (onmessage parse ev st).sensorData key = getProp st.sensorData key ∧
    getProp (onmessage parse ev st).sensorData "lastUpdated" = JVal.str ev.tState ∧
    (onmessage parse ev st).sensorHistory
      = sliceLast 100 (st.sensorHistory ++
          [[("type", JVal.str "control-command"), ("command", JVal.str c),
            ("timestamp", JVal.str ev.tHistory)]]) := by
  obtain ⟨h1, h2⟩ := onmessage_parsed parse ev st _ hp
  have h3 : (onmessage parse ev st).sensorData
      = setSensorDataUpdater (JVal.obj (commandFrame c)) ev.tState st.sensorData := by
    rw [h2]
    simp [tryThrows, readThrows, field, commandFrame, getProp, convThrows]
  refine ⟨?_, ?_, ?_⟩
  · rw [h3]
    exact getProp_merge_commandFrame c ev.tState st.sensorData key hk
  · rw [h3]
    simp [getProp_setSensorDataUpdater]
  · rw [h1]
    simp [setSensorHistoryUpdater, historyEntry, spread, commandFrame, setProp]

/-- The command frame with the command `noop`, handled in the mount-time
state. -/
theorem onmessage_command_frame_witness :
    getProp (onmessage parseFrameExample
        ⟨"\x7b\"type\":\"control-command\",\"command\":\"noop\"\x7d", "t1", "t2"⟩
        (initialDashboard "t0")).sensorData "pumpStatus"
      = getProp (initialDashboard "t0").sensorData "pumpStatus" ∧
    getProp (onmessage parseFrameExample
        ⟨"\x7b\"type\":\"control-command\",\"command\":\"noop\"\x7d", "t1", "t2"⟩
        (initialDashboard "t0")).sensorData "lastUpdated" = JVal.str "t2" ∧
    (onmessage parseFrameExample
        ⟨"\x7b\"type\":\"control-command\",\"command\":\"noop\"\x7d", "t1", "t2"⟩
        (initialDashboard "t0")).sensorHistory
      = sliceLast 100 ((initialDashboard "t0").sensorHistory ++
          [[("type", JVal.str "control-command"), ("command", JVal.str "noop"),
            ("timestamp", JVal.str "t1")]]) :=
  onmessage_command_frame parseFrameExample
    ⟨"\x7b\"type\":\"control-command\",\"command\":\"noop\"\x7d", "t1", "t2"⟩
    (initialDashboard "t0") "noop" "pumpStatus" (by simp [parseFrameExample]) (by decide)

/-- C19 as stated fails: the command `noop` is not a recognized one, yet
handling its frame sets `lastUpdated` (from `t0` to `t2`) and appends an entry
to the empty history. -/
theorem onmessage_command_frame_alters_state :
    "noop" ∉ recognizedCommands ∧
    getProp (onmessage parseFrameExample
        ⟨"\x7b\"type\":\"control-command\",\"command\":\"noop\"\x7d", "t1", "t2"⟩
        (initialDashboard "t0")).sensorData "lastUpdated" = JVal.str "t2" ∧
    getProp (initialDashboard "t0").sensorData "lastUpdated" = JVal.str "t0" ∧
    (onmessage parseFrameExample
        ⟨"\x7b\"type\":\"control-command\",\"command\":\"noop\"\x7d", "t1", "t2"⟩
        (initialDashboard "t0")).sensorHistory
      = [[("type", JVal.str "control-command"), ("command", JVal.str "noop"),
          ("timestamp", JVal.str "t1")]] ∧
    ¬ (∀ (parse : String → Option JVal) (ev : Message) (st : Dashboard) (c : String),
        c ∉ recognizedCommands → parse ev.payload = some (JVal.obj (commandFrame c)) →
        onmessage parse ev st = st) := by
  have hp : parseFrameExample "\x7b\"type\":\"control-command\",\"command\":\"noop\"\x7d"
      = some (JVal.obj (commandFrame "noop")) := by simp [parseFrameExample]
  have hc : "noop" ∉ recognizedCommands := by decide
  have h1 := onmessage_parsed parseFrameExample
    ⟨"\x7b\"type\":\"control-command\",\"command\":\"noop\"\x7d", "t1", "t2"⟩
    (initialDashboard "t0") _ hp
  have e1 : (onmessage parseFrameExample
        ⟨"\x7b\"type\":\"control-command\",\"command\":\"noop\"\x7d", "t1", "t2"⟩
        (initialDashboard "t0")).sensorHistory
      = [[("type", JVal.str "control-command"), ("command", JVal.str "noop"),
          ("timestamp", JVal.str "t1")]] := by
    rw [h1.1]
    simp [setSensorHistoryUpdater, sliceLast, historyEntry, spread, setProp, initialDashboard,
      commandFrame]
  refine ⟨hc, ?_, ?_, e1, fun h => ?_⟩
  · rw [h1.2]
    simp [tryThrows, readThrows, field, commandFrame, getProp, convThrows,
      getProp_setSensorDataUpdater]
  · simp [initialDashboard, initialSensorData, getProp]
  · have h3 := h parseFrameExample
      ⟨"\x7b\"type\":\"control-command\",\"command\":\"noop\"\x7d", "t1", "t2"⟩
      (initialDashboard "t0") "noop" hc hp
    have h4 := congrArg Dashboard.sensorHistory h3
    rw [e1] at h4
    simp [initialDashboard] at h4

/-! ## Reconnection after the cleanup -/

/-- C20, the code at the failing trace: mount, socket 0 opens, the cleanup
runs and calls `close()` on it, its close event arrives, the timeout expires.
The close event schedules `connectWebSocket` (one timeout pending) and the
timeout constructs socket 1: a connection attempt is scheduled and started
after the cleanup, so the property of the claim does not hold of the code. -/
theorem reconnect_after_cleanup :
    connRun [ConnEvent.mount, ConnEvent.opened 0, ConnEvent.cleanup] unmounted
      = { sockets := [ReadyState.CLOSING], wsRef := some 0, isConnected := true,
          pendingTimers := 0 } ∧
    connRun [ConnEvent.mount, ConnEvent.opened 0, ConnEvent.cleanup, ConnEvent.closed 0]
        unmounted
      = { sockets := [ReadyState.CLOSED], wsRef := some 0, isConnected := false,
          pendingTimers := 1 } ∧
    connRun [ConnEvent.mount, ConnEvent.opened 0, ConnEvent.cleanup, ConnEvent.closed 0,
        ConnEvent.timer] unmounted
      = { sockets := [ReadyState.CLOSED, ReadyState.CONNECTING], wsRef := some 1,
          isConnected := false, pendingTimers := 0 } ∧
    ¬ (∀ (before after : List ConnEvent),
        (connRun after (connRun (before ++ [ConnEvent.cleanup]) unmounted)).sockets.length
          = (connRun (before ++ [ConnEvent.cleanup]) unmounted).sockets.length ∧
        (connRun after (connRun (before ++ [ConnEvent.cleanup]) unmounted)).pendingTimers
          ≤ (connRun (before ++ [ConnEvent.cleanup]) unmounted).pendingTimers) := by
  refine ⟨by decide, by decide, by decide, fun h => ?_⟩
  have h1 := (h [ConnEvent.mount, ConnEvent.opened 0] [ConnEvent.closed 0]).2
  revert h1
  decide

/-! ## Rounding to a double -/

theorem roundHalfEven_bounds (x : ℚ) : ⌊x⌋ ≤ roundHalfEven x ∧ roundHalfEven x ≤ ⌊x⌋ + 1 := by
  unfold roundHalfEven
  split_ifs <;> constructor <;> omega

theorem roundHalfEven_intCast (n : ℤ) : roundHalfEven (n : ℚ) = n := by
  simp [roundHalfEven]

theorem le_roundHalfEven (n : ℤ) (x : ℚ) (h : (n : ℚ) ≤ x) : n ≤ roundHalfEven x :=
  le_trans (Int.le_floor.mpr h) (roundHalfEven_bounds x).1

theorem roundHalfEven_le (n : ℤ) (x : ℚ) (h : x ≤ (n : ℚ)) : roundHalfEven x ≤ n := by
  by_cases hx : x = (n : ℚ)
  · rw [hx, roundHalfEven_intCast]
  · have hlt : x < (n : ℚ) := lt_of_le_of_ne h hx
    have h1 : ⌊x⌋ < n := Int.floor_lt.mpr hlt
    have h2 := (roundHalfEven_bounds x).2
    omega

theorem roundHalfEven_mono (x y : ℚ) (h : x ≤ y) : roundHalfEven x ≤ roundHalfEven y := by
  have hf : ⌊x⌋ ≤ ⌊y⌋ := Int.floor_le_floor h
  by_cases he : ⌊x⌋ = ⌊y⌋
  · unfold roundHalfEven
    rw [he]
    have hfr : x - ⌊y⌋ ≤ y - ⌊y⌋ := by linarith
    split_ifs <;> first | omega | (exfalso; linarith)
  · have h1 : ⌊x⌋ + 1 ≤ ⌊y⌋ := by omega
    exact le_trans (roundHalfEven_bounds x).2 (le_trans h1 (roundHalfEven_bounds y).1)

theorem pow_mul_zpow (k : ℕ) (e d : ℤ) (h : d + k = e) :
    ((2 ^ k : ℤ) : ℚ) * 2 ^ d = 2 ^ e := by
  rw [Int.cast_pow, Int.cast_ofNat, ← zpow_natCast, ← zpow_add₀ (by norm_num : (2 : ℚ) ≠ 0)]
  congr 1
  omega

theorem quantum_pos (a : ℚ) : 0 < quantum a := by
  unfold quantum
  positivity

/-- On the nonnegative numbers rounding is monotone. -/
theorem roundDouble_mono_nonneg (x y : ℚ) (hx : 0 ≤ x) (h : x ≤ y) :
    roundDouble x ≤ roundDouble y := by
  have hy : 0 ≤ y := le_trans hx h
  simp only [roundDouble, hx, hy, if_true]
  rcases eq_or_lt_of_le hx with h0 | h0
  · subst h0
    have hq := quantum_pos y
    have hq0 := quantum_pos 0
    have h1 : (0 : ℤ) ≤ roundHalfEven (y / quantum y) :=
      le_roundHalfEven 0 _ (by simpa using div_nonneg hy hq.le)
    have h2 : (0 : ℚ) ≤ (roundHalfEven (y / quantum y) : ℚ) := by exact_mod_cast h1
    simp only [zero_div, show roundHalfEven 0 = 0 from roundHalfEven_intCast 0, Int.cast_zero,
      zero_mul]
    exact mul_nonneg h2 hq.le
  · have hy0 : 0 < y := lt_of_lt_of_le h0 h
    have hlog : Int.log 2 x ≤ Int.log 2 y := Int.log_mono_right h0 h
    set ex := Max.max (Int.log 2 x) (-1022) with hex
    set ey := Max.max (Int.log 2 y) (-1022) with hey
    have hexy : ex ≤ ey := max_le_max hlog le_rfl
    have hqx : quantum x = (2 : ℚ) ^ (ex - 52) := rfl
    have hqy : quantum y = (2 : ℚ) ^ (ey - 52) := rfl
    rcases eq_or_lt_of_le hexy with he | he
    · rw [hqx, hqy, ← he]
      have hq : (0 : ℚ) < 2 ^ (ex - 52) := by positivity
      have h1 : x / 2 ^ (ex - 52) ≤ y / 2 ^ (ex - 52) := div_le_div_of_nonneg_right h hq.le
      have h2 := roundHalfEven_mono _ _ h1
      have h3 : (roundHalfEven (x / 2 ^ (ex - 52)) : ℚ) ≤ roundHalfEven (y / 2 ^ (ex - 52)) := by
        exact_mod_cast h2
      exact mul_le_mul_of_nonneg_right h3 hq.le
    · have hx2 : x < (2 : ℚ) ^ (ex + 1) := by
        have h1 : x < ((2 : ℕ) : ℚ) ^ (Int.log 2 x + 1) := Int.lt_zpow_succ_log_self (by norm_num) x
        have h2 : ((2 : ℕ) : ℚ) ^ (Int.log 2 x + 1) ≤ (2 : ℚ) ^ (ex + 1) := by
          have : Int.log 2 x + 1 ≤ ex + 1 := by
            have := le_max_left (Int.log 2 x) (-1022)
            omega
          exact_mod_cast zpow_le_zpow_right₀ (by norm_num : (1 : ℚ) ≤ 2) this
        exact lt_of_lt_of_le h1 h2
      have hey2 : ey = Int.log 2 y := by
        have h1 : -1022 ≤ ex := le_max_right _ _
        have h2 : -1022 < ey := lt_of_le_of_lt h1 he
        rcases max_cases (Int.log 2 y) (-1022) with ⟨h3, _⟩ | ⟨h3, _⟩
        · exact h3
        · omega
      have hy2 : (2 : ℚ) ^ ey ≤ y := by
        rw [hey2]
        exact_mod_cast Int.zpow_log_le_self (by norm_num : 1 < 2) hy0
      have hqx0 : (0 : ℚ) < 2 ^ (ex - 52) := by positivity
      have hqy0 : (0 : ℚ) < 2 ^ (ey - 52) := by positivity
      have ha : x / 2 ^ (ex - 52) ≤ ((2 ^ 53 : ℤ) : ℚ) := by
        rw [div_le_iff₀ hqx0]
        have e1 : (((2 ^ 53 : ℤ) : ℚ)) * 2 ^ (ex - 52) = 2 ^ (ex + 1) :=
          pow_mul_zpow 53 _ _ (by omega)
        rw [e1]
        exact hx2.le
      have hb : ((2 ^ 52 : ℤ) : ℚ) ≤ y / 2 ^ (ey - 52) := by
        rw [le_div_iff₀ hqy0]
        have e1 : (((2 ^ 52 : ℤ) : ℚ)) * 2 ^ (ey - 52) = 2 ^ ey :=
          pow_mul_zpow 52 _ _ (by omega)
        rw [e1]
        exact hy2
      have h1 := roundHalfEven_le _ _ ha
      have h2 := le_roundHalfEven _ _ hb
      have h3 : (roundHalfEven (x / 2 ^ (ex - 52)) : ℚ) ≤ ((2 ^ 53 : ℤ) : ℚ) := by
        exact_mod_cast h1
      have h4 : ((2 ^ 52 : ℤ) : ℚ) ≤ (roundHalfEven (y / 2 ^ (ey - 52)) : ℚ) := by
        exact_mod_cast h2
      rw [hqx, hqy]
      calc (roundHalfEven (x / 2 ^ (ex - 52)) : ℚ) * 2 ^ (ex - 52)
          ≤ ((2 ^ 53 : ℤ) : ℚ) * 2 ^ (ex - 52) := mul_le_mul_of_nonneg_right h3 hqx0.le
        _ = 2 ^ (ex + 1) := pow_mul_zpow 53 _ _ (by omega)
        _ ≤ 2 ^ ey := zpow_le_zpow_right₀ (by norm_num : (1 : ℚ) ≤ 2) (by omega)
        _ = ((2 ^ 52 : ℤ) : ℚ) * 2 ^ (ey - 52) := (pow_mul_zpow 52 _ _ (by omega)).symm
        _ ≤ (roundHalfEven (y / 2 ^ (ey - 52)) : ℚ) * 2 ^ (ey - 52) :=
          mul_le_mul_of_nonneg_right h4 hqy0.le

theorem roundDouble_nonneg (x : ℚ) (hx : 0 ≤ x) : 0 ≤ roundDouble x := by
  have h := roundDouble_mono_nonneg 0 x le_rfl hx
  have h0 : roundDouble 0 = 0 := by
    simp [roundDouble, show roundHalfEven 0 = 0 from roundHalfEven_intCast 0]
  rwa [h0] at h

theorem roundDouble_of_neg (x : ℚ) (hx : x < 0) : roundDouble x = -roundDouble (-x) := by
  have h1 : ¬ (0 ≤ x) := not_le.mpr hx
  have h2 : (0 : ℚ) ≤ -x := by linarith
  simp [roundDouble, h1, h2]

/-- Rounding to the nearest double is monotone. -/
theorem roundDouble_mono : Monotone roundDouble := by
  intro x y h
  by_cases hx : 0 ≤ x
  · exact roundDouble_mono_nonneg x y hx h
  · have hx0 : x < 0 := not_le.mp hx
    rw [roundDouble_of_neg x hx0]
    by_cases hy : 0 ≤ y
    · have h1 := roundDouble_nonneg (-x) (by linarith)
      have h2 := roundDouble_nonneg y hy
      linarith
    · have hy0 : y < 0 := not_le.mp hy
      rw [roundDouble_of_neg y hy0]
      have h1 := roundDouble_mono_nonneg (-y) (-x) (by linarith) (by linarith)
      linarith

/-- The binade of a positive number. -/
theorem log_eq_of_bounds (x : ℚ) (e : ℤ) (hx : 0 < x) (h1 : (2 : ℚ) ^ e ≤ x)
    (h2 : x < (2 : ℚ) ^ (e + 1)) : Int.log 2 x = e := by
  have a1 : e ≤ Int.log 2 x :=
    (Int.zpow_le_iff_le_log (by norm_num : 1 < 2) hx).mp (by exact_mod_cast h1)
  have a2 : Int.log 2 x < e + 1 :=
    (Int.lt_zpow_iff_log_lt (by norm_num : 1 < 2) hx).mp (by exact_mod_cast h2)
  omega

/-- The rounding of a positive number in the binade `e` of the normal range. -/
theorem roundDouble_eq (x : ℚ) (e n : ℤ) (hx : 0 < x) (h1 : (2 : ℚ) ^ e ≤ x)
    (h2 : x < (2 : ℚ) ^ (e + 1)) (he : -1022 ≤ e)
    (hn : roundHalfEven (x / 2 ^ (e - 52)) = n) :
    roundDouble x = n * 2 ^ (e - 52) := by
  have hq : quantum x = 2 ^ (e - 52) := by
    rw [quantum, log_eq_of_bounds x e hx h1 h2, max_eq_left he]
  simp [roundDouble, hx.le, hq, hn]

/-- A positive number with a 53-bit significand in the normal range is its own
rounding. -/
theorem roundDouble_fix (x : ℚ) (e n : ℤ) (hx : 0 < x) (h1 : (2 : ℚ) ^ e ≤ x)
    (h2 : x < (2 : ℚ) ^ (e + 1)) (he : -1022 ≤ e) (hn : x = n * 2 ^ (e - 52)) :
    roundDouble x = x := by
  have hq : (0 : ℚ) < 2 ^ (e - 52) := by positivity
  have h3 : x / 2 ^ (e - 52) = (n : ℚ) := by
    rw [hn]
    field_simp
  rw [roundDouble_eq x e n hx h1 h2 he (by rw [h3, roundHalfEven_intCast]), ← hn]

theorem roundHalfEven_of_near (n : ℤ) (x : ℚ) (h1 : (n : ℚ) - 1 / 2 < x)
    (h2 : x < (n : ℚ) + 1 / 2) : roundHalfEven x = n := by
  by_cases h : (n : ℚ) ≤ x
  · have hf : ⌊x⌋ = n := Int.floor_eq_iff.mpr ⟨h, by linarith⟩
    have h3 : x - ((n : ℤ) : ℚ) < 1 / 2 := by linarith
    simp only [roundHalfEven, hf, h3, if_true]
  · have h' : x < n := not_le.mp h
    have hf : ⌊x⌋ = n - 1 := Int.floor_eq_iff.mpr ⟨by push_cast; linarith, by push_cast; linarith⟩
    have h3 : ¬ (x - ((n - 1 : ℤ) : ℚ) < 1 / 2) := by push_cast; linarith
    have h4 : 1 / 2 < x - ((n - 1 : ℤ) : ℚ) := by push_cast; linarith
    simp only [roundHalfEven, hf, h3, h4, if_false, if_true]
    omega

theorem roundDouble_zero : roundDouble 0 = 0 := by
  simp [roundDouble, show roundHalfEven 0 = 0 from roundHalfEven_intCast 0]

theorem roundDouble_one : roundDouble 1 = 1 :=
  roundDouble_fix 1 0 (2 ^ 52) (by norm_num) (by norm_num) (by norm_num) (by norm_num)
    (by norm_num)

theorem roundDouble_hundred : roundDouble 100 = 100 :=
  roundDouble_fix 100 6 (100 * 2 ^ 46) (by norm_num) (by norm_num) (by norm_num) (by norm_num)
    (by norm_num)

theorem roundDouble_half : roundDouble (1 / 2) = 1 / 2 :=
  roundDouble_fix (1 / 2) (-1) (2 ^ 52) (by norm_num) (by norm_num) (by norm_num) (by norm_num)
    (by norm_num)

theorem roundDouble_fifty : roundDouble 50 = 50 :=
  roundDouble_fix 50 5 (50 * 2 ^ 47) (by norm_num) (by norm_num) (by norm_num) (by norm_num)
    (by norm_num)

theorem roundDouble_quarter : roundDouble (1 / 4) = 1 / 4 :=
  roundDouble_fix (1 / 4) (-2) (2 ^ 52) (by norm_num) (by norm_num) (by norm_num) (by norm_num)
    (by norm_num)

theorem roundDouble_twentyfive : roundDouble 25 = 25 :=
  roundDouble_fix 25 4 (25 * 2 ^ 48) (by norm_num) (by norm_num) (by norm_num) (by norm_num)
    (by norm_num)

theorem roundDouble_seventyfive : roundDouble 75 = 75 :=
  roundDouble_fix 75 6 (75 * 2 ^ 46) (by norm_num) (by norm_num) (by norm_num) (by norm_num)
    (by norm_num)

/-! ## The display maps -/

theorem noData_numLit (conv : JVal → JNum) (q : ℚ) : noData conv (numLit q) = false := by
  simp [noData, numLit, isNaN, toNumber]

/-- The value of `mapSoilMoisture` on a finite number: the clamp of the
expression of line 63, each operation rounded. -/
theorem mapSoilMoisture_numLit (rnd : ℚ → ℚ) (conv : JVal → JNum) (q : ℚ) :
    mapSoilMoisture rnd conv (numLit q) = JNum.fin (mapSoilMoistureRounded rnd q) := by
  rw [mapSoilMoisture, noData_numLit]
  simp [numLit, toNumber, JNum.divLit, JNum.mulLit, JNum.litSub, JNum.min, JNum.max,
    mapSoilMoistureRounded]

/-- In exact arithmetic the rounded formula is the formula of the
specification. -/
theorem mapSoilMoistureRounded_id (q : ℚ) :
    mapSoilMoistureRounded id q = mapSoilMoistureSpec q := by
  have e : q / 1024 * 100 = q * 100 / 1024 := by ring
  simp [mapSoilMoistureRounded, mapSoilMoistureSpec, e]

/-- C22 (amended): for every rounding of the arithmetic that is monotone and
leaves 0, 1 and 100 as they are (as rounding to a double does), and for every
rational `rawValue`, `mapSoilMoisture(rawValue)` is
`max(0, min(100, 100 - (rawValue/1024)*100))` with each operation rounded; the
result lies in [0, 100], 0 maps to 100, every value of at least 1024 maps to 0,
and the map is non-increasing.  In exact arithmetic the rounded formula is
`max(0, min(100, 100 - rawValue*100/1024))`. -/
theorem mapSoilMoisture_clamped_inverted (rnd : ℚ → ℚ) (conv : JVal → JNum) (q q2 : ℚ)
    (hmono : Monotone rnd) (h0 : rnd 0 = 0) (h1 : rnd 1 = 1) (h100 : rnd 100 = 100) :
    mapSoilMoisture rnd conv (numLit q) = JNum.fin (mapSoilMoistureRounded rnd q) ∧
    (0 ≤ mapSoilMoistureRounded rnd q ∧ mapSoilMoistureRounded rnd q ≤ 100) ∧
    mapSoilMoisture rnd conv (numLit 0) = JNum.fin 100 ∧
    (1024 ≤ q → mapSoilMoisture rnd conv (numLit q) = JNum.fin 0) ∧
    (q ≤ q2 → mapSoilMoistureRounded rnd q2 ≤ mapSoilMoistureRounded rnd q) ∧
    mapSoilMoistureRounded id q = Max.max 0 (Min.min 100 (100 - q * 100 / 1024)) := by
  refine ⟨mapSoilMoisture_numLit rnd conv q, ⟨?_, ?_⟩, ?_, ?_, ?_, ?_⟩
  · exact le_max_left _ _
  · exact max_le (by norm_num) (min_le_left _ _)
  · rw [mapSoilMoisture_numLit]
    simp [mapSoilMoistureRounded, h0, h100]
  · intro h
    rw [mapSoilMoisture_numLit]
    have a1 : (1 : ℚ) ≤ rnd (q / 1024) := by
      have := hmono (show (1 : ℚ) ≤ q / 1024 by rw [le_div_iff₀ (by norm_num)]; linarith)
      rwa [h1] at this
    have a2 : (100 : ℚ) ≤ rnd (rnd (q / 1024) * 100) := by
      have := hmono (show (100 : ℚ) ≤ rnd (q / 1024) * 100 by linarith)
      rwa [h100] at this
    have a3 : rnd (100 - rnd (rnd (q / 1024) * 100)) ≤ 0 := by
      have := hmono (show 100 - rnd (rnd (q / 1024) * 100) ≤ (0 : ℚ) by linarith)
      rwa [h0] at this
    have a4 : Min.min 100 (rnd (100 - rnd (rnd (q / 1024) * 100))) ≤ 0 :=
      le_trans (min_le_right _ _) a3
    simp [mapSoilMoistureRounded, max_eq_left a4]
  · intro h
    unfold mapSoilMoistureRounded
    apply max_le_max le_rfl
    apply min_le_min le_rfl
    apply hmono
    have b1 : rnd (q / 1024) ≤ rnd (q2 / 1024) :=
      hmono (div_le_div_of_nonneg_right h (by norm_num))
    have b2 : rnd (rnd (q / 1024) * 100) ≤ rnd (rnd (q2 / 1024) * 100) :=
      hmono (by linarith)
    linarith
  · exact mapSoilMoistureRounded_id q

/-- In double arithmetic the raw value 2000 maps to 0, 0 maps to 100, and 512
maps no higher than 256. -/
theorem mapSoilMoisture_clamped_inverted_witness :
    mapSoilMoisture roundDouble (fun _ => JNum.nan) (numLit 2000) = JNum.fin 0 ∧
    mapSoilMoisture roundDouble (fun _ => JNum.nan) (numLit 0) = JNum.fin 100 ∧
    mapSoilMoistureRounded roundDouble 512 ≤ mapSoilMoistureRounded roundDouble 256 :=
  ⟨(mapSoilMoisture_clamped_inverted roundDouble (fun _ => JNum.nan) 2000 2000
      roundDouble_mono roundDouble_zero roundDouble_one roundDouble_hundred).2.2.2.1
      (by norm_num),
   (mapSoilMoisture_clamped_inverted roundDouble (fun _ => JNum.nan) 2000 2000
      roundDouble_mono roundDouble_zero roundDouble_one roundDouble_hundred).2.2.1,
   (mapSoilMoisture_clamped_inverted roundDouble (fun _ => JNum.nan) 256 512
      roundDouble_mono roundDouble_zero roundDouble_one roundDouble_hundred).2.2.2.2.1
      (by norm_num)⟩

/-- In double arithmetic every raw value between 0 and 2^-66 maps to exactly
100: the subtraction from 100 rounds back to 100. -/
theorem mapSoilMoisture_tiny (conv : JVal → JNum) (q : ℚ) (hq0 : 0 ≤ q)
    (hq : q ≤ 1 / 2 ^ 66) :
    mapSoilMoisture roundDouble conv (numLit q) = JNum.fin 100 := by
  have f1 : roundDouble (1 / 2 ^ 66 / 1024) = 1 / 2 ^ 76 := by
    rw [roundDouble_fix (1 / 2 ^ 66 / 1024) (-76) (2 ^ 52) (by norm_num) (by norm_num)
      (by norm_num) (by norm_num) (by norm_num)]
    norm_num
  have f2 : roundDouble (1 / 2 ^ 76 * 100) = 100 / 2 ^ 76 := by
    rw [roundDouble_fix (1 / 2 ^ 76 * 100) (-70) (100 * 2 ^ 46) (by norm_num) (by norm_num)
      (by norm_num) (by norm_num) (by norm_num)]
    norm_num
  have f3 : roundDouble (100 - 100 / 2 ^ 76) = 100 := by
    rw [roundDouble_eq (100 - 100 / 2 ^ 76) 6 (100 * 2 ^ 46) (by norm_num) (by norm_num)
      (by norm_num) (by norm_num)
      (roundHalfEven_of_near _ _ (by norm_num) (by norm_num))]
    norm_num
  have a0 : 0 ≤ roundDouble (q / 1024) :=
    roundDouble_nonneg _ (div_nonneg hq0 (by norm_num))
  have a1 : roundDouble (q / 1024) ≤ 1 / 2 ^ 76 := by
    rw [← f1]
    exact roundDouble_mono (div_le_div_of_nonneg_right hq (by norm_num))
  have b0 : 0 ≤ roundDouble (roundDouble (q / 1024) * 100) :=
    roundDouble_nonneg _ (by linarith)
  have b1 : roundDouble (roundDouble (q / 1024) * 100) ≤ 100 / 2 ^ 76 := by
    rw [← f2]
    exact roundDouble_mono (by linarith)
  have c1 : roundDouble (100 - roundDouble (roundDouble (q / 1024) * 100)) ≤ 100 := by
    have := roundDouble_mono
      (show 100 - roundDouble (roundDouble (q / 1024) * 100) ≤ (100 : ℚ) by linarith)
    rwa [roundDouble_hundred] at this
  have c2 : 100 ≤ roundDouble (100 - roundDouble (roundDouble (q / 1024) * 100)) := by
    have := roundDouble_mono
      (show (100 : ℚ) - 100 / 2 ^ 76
        ≤ 100 - roundDouble (roundDouble (q / 1024) * 100) by linarith)
    rwa [f3] at this
  have c3 : roundDouble (100 - roundDouble (roundDouble (q / 1024) * 100)) = 100 :=
    le_antisymm c1 c2
  rw [mapSoilMoisture_numLit]
  simp [mapSoilMoistureRounded, c3]

/-- C22 as stated fails: in double arithmetic `mapSoilMoisture(1e-20)` is
exactly 100, while `max(0, min(100, 100 - rawValue*100/1024))` is below 100
there. -/
theorem mapSoilMoisture_not_exact :
    mapSoilMoisture roundDouble (fun _ => JNum.nan) (numLit (1 / 10 ^ 20)) = JNum.fin 100 ∧
    Max.max 0 (Min.min 100 (100 - (1 / 10 ^ 20 : ℚ) * 100 / 1024)) < 100 ∧
    ¬ (∀ (conv : JVal → JNum) (q : ℚ),
        mapSoilMoisture roundDouble conv (numLit q)
          = JNum.fin (Max.max 0 (Min.min 100 (100 - q * 100 / 1024)))) := by
  have h1 := mapSoilMoisture_tiny (fun _ => JNum.nan) (1 / 10 ^ 20) (by norm_num) (by norm_num)
  have h2 : Max.max 0 (Min.min 100 (100 - (1 / 10 ^ 20 : ℚ) * 100 / 1024)) < 100 := by
    rw [max_lt_iff]
    exact ⟨by norm_num, lt_of_le_of_lt (min_le_right _ _) (by norm_num)⟩
  refine ⟨h1, h2, fun h => ?_⟩
  have h3 := h (fun _ => JNum.nan) (1 / 10 ^ 20)
  rw [h1] at h3
  have h4 : (100 : ℚ) = Max.max 0 (Min.min 100 (100 - (1 / 10 ^ 20 : ℚ) * 100 / 1024)) := by
    simpa using h3
  linarith

/-- The value of `mapLightIntensity` on a finite number. -/
theorem mapLightIntensity_numLit (rnd : ℚ → ℚ) (conv : JVal → JNum) (q : ℚ) :
    mapLightIntensity rnd conv (numLit q)
      = JNum.fin (Max.max 0 (Min.min 100 (rnd (100 - rnd (rnd (q / 4095) * 100))))) := by
  rw [mapLightIntensity, noData_numLit]
  simp [numLit, toNumber, JNum.divLit, JNum.mulLit, JNum.litSub, JNum.min, JNum.max]

/-- In double arithmetic `mapLightIntensity(1024)` lies between 19175/256
(about 74.9) and 75. -/
theorem mapLightIntensity_1024 (conv : JVal → JNum) :
    ∃ r : ℚ, mapLightIntensity roundDouble conv (numLit 1024) = JNum.fin r ∧
      19175 / 256 ≤ r ∧ r ≤ 75 := by
  have g1 : roundDouble (257 / 1024) = 257 / 1024 :=
    roundDouble_fix (257 / 1024) (-2) (257 * 2 ^ 44) (by norm_num) (by norm_num) (by norm_num)
      (by norm_num) (by norm_num)
  have g2 : roundDouble (6425 / 256) = 6425 / 256 :=
    roundDouble_fix (6425 / 256) 4 (6425 * 2 ^ 40) (by norm_num) (by norm_num) (by norm_num)
      (by norm_num) (by norm_num)
  have g3 : roundDouble (19175 / 256) = 19175 / 256 :=
    roundDouble_fix (19175 / 256) 6 (19175 * 2 ^ 38) (by norm_num) (by norm_num) (by norm_num)
      (by norm_num) (by norm_num)
  have a1 : 1 / 4 ≤ roundDouble (1024 / 4095) := by
    have := roundDouble_mono (show (1 / 4 : ℚ) ≤ 1024 / 4095 by norm_num)
    rwa [roundDouble_quarter] at this
  have a2 : roundDouble (1024 / 4095) ≤ 257 / 1024 := by
    have := roundDouble_mono (show (1024 / 4095 : ℚ) ≤ 257 / 1024 by norm_num)
    rwa [g1] at this
  have b1 : 25 ≤ roundDouble (roundDouble (1024 / 4095) * 100) := by
    have := roundDouble_mono (show (25 : ℚ) ≤ roundDouble (1024 / 4095) * 100 by linarith)
    rwa [roundDouble_twentyfive] at this
  have b2 : roundDouble (roundDouble (1024 / 4095) * 100) ≤ 6425 / 256 := by
    have := roundDouble_mono
      (show roundDouble (1024 / 4095) * 100 ≤ (6425 / 256 : ℚ) by linarith)
    rwa [g2] at this
  have c1 : 19175 / 256
      ≤ roundDouble (100 - roundDouble (roundDouble (1024 / 4095) * 100)) := by
    have := roundDouble_mono
      (show (19175 / 256 : ℚ) ≤ 100 - roundDouble (roundDouble (1024 / 4095) * 100) by
        linarith)
    rwa [g3] at this
  have c2 : roundDouble (100 - roundDouble (roundDouble (1024 / 4095) * 100)) ≤ 75 := by
    have := roundDouble_mono
      (show 100 - roundDouble (roundDouble (1024 / 4095) * 100) ≤ (75 : ℚ) by linarith)
    rwa [roundDouble_seventyfive] at this
  refine ⟨_, mapLightIntensity_numLit roundDouble conv 1024, ?_, ?_⟩
  · rw [min_eq_right (by linarith), max_eq_right (by linarith)]
    exact c1
  · rw [min_eq_right (by linarith), max_eq_right (by linarith)]
    exact c2

/-- C23, the code at the failing input: `mapLightIntensity` divides by 4095,
not by 1024, so the raw value 1024 does not map to 0: in exact arithmetic it
maps to 61420/819 (about 75), and in double arithmetic to a value between
19175/256 and 75; it is 4095 that maps to 0. -/
theorem mapLightIntensity_divides_by_4095 :
    mapLightIntensity id (fun _ => JNum.nan) (numLit 1024) = JNum.fin (61420 / 819) ∧
    mapLightIntensity id (fun _ => JNum.nan) (numLit 1024) ≠ JNum.fin 0 ∧
    mapLightIntensity id (fun _ => JNum.nan) (numLit 0) = JNum.fin 100 ∧
    mapLightIntensity id (fun _ => JNum.nan) (numLit 4095) = JNum.fin 0 ∧
    (∃ r : ℚ, mapLightIntensity roundDouble (fun _ => JNum.nan) (numLit 1024) = JNum.fin r ∧
      19175 / 256 ≤ r ∧ r ≤ 75) ∧
    mapLightIntensity roundDouble (fun _ => JNum.nan) (numLit 1024) ≠ JNum.fin 0 ∧
    mapLightIntensity roundDouble (fun _ => JNum.nan) (numLit 0) = JNum.fin 100 ∧
    mapLightIntensity roundDouble (fun _ => JNum.nan) (numLit 4095) = JNum.fin 0 := by
  obtain ⟨r, hr, hr1, hr2⟩ := mapLightIntensity_1024 (fun _ => JNum.nan)
  refine ⟨?_, ?_, ?_, ?_, ⟨r, hr, hr1, hr2⟩, ?_, ?_, ?_⟩
  · rw [mapLightIntensity_numLit]
    norm_num
  · rw [mapLightIntensity_numLit]
    norm_num
  · rw [mapLightIntensity_numLit]
    norm_num
  · rw [mapLightIntensity_numLit]
    norm_num
  · rw [hr]
    intro h
    have h2 : r = 0 := by simpa using h
    linarith
  · rw [mapLightIntensity_numLit]
    simp [roundDouble_zero, roundDouble_hundred]
  · rw [mapLightIntensity_numLit]
    have e : (4095 : ℚ) / 4095 = 1 := by norm_num
    simp [e, roundDouble_one, roundDouble_hundred, roundDouble_zero]

/-! ## Missing values and the status bands -/

/-- The guard of the display helpers holds on `null`, `undefined` and NaN. -/
theorem noData_of_missing (conv : JVal → JNum) (value : JVal)
    (h : value = JVal.null ∨ value = JVal.undefined ∨ value = JVal.num JNum.nan) :
    noData conv value = true := by
  rcases h with h | h | h <;> subst h <;> simp [noData, isNaN, toNumber]

/-- C24: missing values are handled before classification.  For every type
string, known or not, when the value is `null`, `undefined` or NaN,
`getStatusInfo` returns the text "No Data", `getGaugeColor` returns the gray
"#64748b", and `mapSoilMoisture` and `mapLightIntensity` return 0. -/
theorem missing_values_handled_first (rnd : ℚ → ℚ) (conv : JVal → JNum) (value : JVal)
    (type : String)
    (h : value = JVal.null ∨ value = JVal.undefined ∨ value = JVal.num JNum.nan) :
    (getStatusInfo conv value type).text = "No Data" ∧
    getGaugeColor conv value type = "#64748b" ∧
    mapSoilMoisture rnd conv value = JNum.fin 0 ∧
    mapLightIntensity rnd conv value = JNum.fin 0 := by
  have h1 := noData_of_missing conv value h
  simp [getStatusInfo, getGaugeColor, mapSoilMoisture, mapLightIntensity, h1]

/-- The value `null` with a type string that no helper knows. -/
theorem missing_values_handled_first_witness :
    (getStatusInfo (fun _ => JNum.nan) JVal.null "pressure").text = "No Data" ∧
    getGaugeColor (fun _ => JNum.nan) JVal.null "pressure" = "#64748b" ∧
    mapSoilMoisture roundDouble (fun _ => JNum.nan) JVal.null = JNum.fin 0 ∧
    mapLightIntensity roundDouble (fun _ => JNum.nan) JVal.null = JNum.fin 0 :=
  missing_values_handled_first roundDouble (fun _ => JNum.nan) JVal.null "pressure"
    (Or.inl rfl)

theorem noData_num (conv : JVal → JNum) (n : JNum) (h : n ≠ JNum.nan) :
    noData conv (JVal.num n) = false := by
  cases n <;> simp_all [noData, isNaN, toNumber]

/-- C25, the code at the failing input: for the temperature 32
`getStatusInfo` selects the band "Optimal" (green) while `getGaugeColor`
returns the red "#ef4444", because the gauge compares with 30 where the status
compares with 35; so the gauge is not green exactly when the status is
"Optimal". -/
theorem gauge_disagrees_with_status_for_temperature :
    (getStatusInfo (fun _ => JNum.nan) (numLit 32) "temperature").text = "Optimal" ∧
    (getStatusInfo (fun _ => JNum.nan) (numLit 32) "temperature").color = "text-green-500" ∧
    getGaugeColor (fun _ => JNum.nan) (numLit 32) "temperature" = "#ef4444" ∧
    ¬ (∀ (conv : JVal → JNum) (q : ℚ),
        getGaugeColor conv (numLit q) "temperature" = "#22c55e" ↔
          (getStatusInfo conv (numLit q) "temperature").text = "Optimal") := by
  have h0 : ∀ conv : JVal → JNum, noData conv (numLit 32) = false :=
    fun conv => noData_numLit conv 32
  have h1 : ∀ conv : JVal → JNum,
      (getStatusInfo conv (numLit 32) "temperature").text = "Optimal" := by
    intro conv
    simp [getStatusInfo, h0, ltLit, gtLit, toNumber, numLit, JNum.lt, noData, isNaN]
    norm_num
  have h2 : ∀ conv : JVal → JNum, getGaugeColor conv (numLit 32) "temperature" = "#ef4444" := by
    intro conv
    simp [getGaugeColor, h0, ltLit, gtLit, toNumber, numLit, JNum.lt, noData, isNaN]
    norm_num
  refine ⟨h1 _, ?_, h2 _, fun h => ?_⟩
  · simp [getStatusInfo, h0, ltLit, gtLit, toNumber, numLit, JNum.lt, noData, isNaN]
    norm_num
  · have h3 := (h (fun _ => JNum.nan) 32).mpr (h1 _)
    rw [h2] at h3
    simp at h3

/-- The named bands of each sensor type. -/
theorem getStatusInfo_text_fin (conv : JVal → JNum) (q : ℚ) :
    (getStatusInfo conv (numLit q) "temperature").text
      = (if q < 18 then "Low" else if 35 < q then "High" else "Optimal") ∧
    (getStatusInfo conv (numLit q) "humidity").text
      = (if q < 30 then "Low" else if 80 < q then "High" else "Optimal") ∧
    (getStatusInfo conv (numLit q) "soilMoisture").text
      = (if 80 ≤ q then "Wet/Water" else if 40 ≤ q then "Moist" else if 10 ≤ q then "Dry"
          else if 0 ≤ q then "Air/No Soil" else "Unknown") ∧
    (getStatusInfo conv (numLit q) "lightIntensity").text
      = (if 90 ≤ q then "Bright Sunlight" else if 70 ≤ q then "Indoor Light"
          else if 40 ≤ q then "Dim/Shadow" else if 0 ≤ q then "Very Dark" else "Unknown") ∧
    (getStatusInfo conv (numLit q) "rainDrop").text
      = (if 80 ≤ q then "Heavy Rain" else if 50 ≤ q then "Moderate Rain"
          else if 20 ≤ q then "Light Rain" else if 5 ≤ q then "Drizzle"
          else if 0 ≤ q then "No Rain" else "Unknown") := by
  have h0 : noData conv (JVal.num (JNum.fin q)) = false := noData_numLit conv q
  refine ⟨?_, ?_, ?_, ?_, ?_⟩ <;>
    simp [getStatusInfo, h0, ltLit, gtLit, geLit, toNumber, numLit, JNum.lt, JNum.ge] <;>
    split_ifs <;> rfl

/-- The bands at the two infinities. -/
theorem getStatusInfo_text_inf (conv : JVal → JNum) :
    ((getStatusInfo conv (JVal.num JNum.posInf) "temperature").text = "High" ∧
     (getStatusInfo conv (JVal.num JNum.posInf) "humidity").text = "High" ∧
     (getStatusInfo conv (JVal.num JNum.posInf) "soilMoisture").text = "Wet/Water" ∧
     (getStatusInfo conv (JVal.num JNum.posInf) "lightIntensity").text = "Bright Sunlight" ∧
     (getStatusInfo conv (JVal.num JNum.posInf) "rainDrop").text = "Heavy Rain") ∧
    ((getStatusInfo conv (JVal.num JNum.negInf) "temperature").text = "Low" ∧
     (getStatusInfo conv (JVal.num JNum.negInf) "humidity").text = "Low" ∧
     (getStatusInfo conv (JVal.num JNum.negInf) "soilMoisture").text = "Unknown" ∧
     (getStatusInfo conv (JVal.num JNum.negInf) "lightIntensity").text = "Unknown" ∧
     (getStatusInfo conv (JVal.num JNum.negInf) "rainDrop").text = "Unknown") := by
  refine ⟨⟨?_, ?_, ?_, ?_, ?_⟩, ⟨?_, ?_, ?_, ?_, ?_⟩⟩ <;>
    simp [getStatusInfo, noData, isNaN, ltLit, gtLit, geLit, toNumber, JNum.lt, JNum.ge]

/-- C30: the status bands are exhaustive on valid readings.  For every
number other than NaN and every one of the five known types, `getStatusInfo`
returns the text "Unknown" if and only if the type is `soilMoisture`,
`lightIntensity` or `rainDrop` and the value is negative; for `temperature`
and `humidity` the text is one of Low, Optimal, High; for a value of at least 0
of the other three types the text is one of the named bands of the type. -/
theorem status_bands_exhaustive (conv : JVal → JNum) (n : JNum) (type : String)
    (hn : n ≠ JNum.nan) (ht : type ∈ knownTypes) :
    ((getStatusInfo conv (JVal.num n) type).text = "Unknown" ↔
      (type ∈ ["soilMoisture", "lightIntensity", "rainDrop"] ∧ JNum.lt n (JNum.fin 0) = true)) ∧
    (type ∈ ["temperature", "humidity"] →
      (getStatusInfo conv (JVal.num n) type).text ∈ ["Low", "Optimal", "High"]) ∧
    (type = "soilMoisture" → JNum.ge n (JNum.fin 0) = true →
      (getStatusInfo conv (JVal.num n) type).text
        ∈ ["Wet/Water", "Moist", "Dry", "Air/No Soil"]) ∧
    (type = "lightIntensity" → JNum.ge n (JNum.fin 0) = true →
      (getStatusInfo conv (JVal.num n) type).text
        ∈ ["Bright Sunlight", "Indoor Light", "Dim/Shadow", "Very Dark"]) ∧
    (type = "rainDrop" → JNum.ge n (JNum.fin 0) = true →
      (getStatusInfo conv (JVal.num n) type).text
        ∈ ["Heavy Rain", "Moderate Rain", "Light Rain", "Drizzle", "No Rain"]) := by
  obtain ⟨⟨p1, p2, p3, p4, p5⟩, ⟨m1, m2, m3, m4, m5⟩⟩ := getStatusInfo_text_inf conv
  simp only [knownTypes, List.mem_cons, List.mem_singleton, List.not_mem_nil, or_false] at ht
  cases n with
  | nan => exact absurd rfl hn
  | posInf =>
    rcases ht with h | h | h | h | h <;> subst h <;>
      simp [p1, p2, p3, p4, p5, JNum.lt, JNum.ge]
  | negInf =>
    rcases ht with h | h | h | h | h <;> subst h <;>
      simp [m1, m2, m3, m4, m5, JNum.lt, JNum.ge]
  | fin q =>
    obtain ⟨f1, f2, f3, f4, f5⟩ := getStatusInfo_text_fin conv q
    simp only [numLit] at f1 f2 f3 f4 f5
    rcases ht with h | h | h | h | h <;> subst h
    · rw [f1]
      split_ifs <;> simp [JNum.lt, JNum.ge]
    · rw [f2]
      split_ifs <;> simp [JNum.lt, JNum.ge]
    · rw [f3]
      split_ifs <;> simp [JNum.lt, JNum.ge] <;> linarith
    · rw [f4]
      split_ifs <;> simp [JNum.lt, JNum.ge] <;> linarith
    · rw [f5]
      split_ifs <;> simp [JNum.lt, JNum.ge] <;> linarith

/-- The rain value -1. -/
theorem status_bands_exhaustive_witness :
    ((getStatusInfo (fun _ => JNum.nan) (JVal.num (JNum.fin (-1))) "rainDrop").text = "Unknown" ↔
      ("rainDrop" ∈ ["soilMoisture", "lightIntensity", "rainDrop"] ∧
        JNum.lt (JNum.fin (-1)) (JNum.fin 0) = true)) :=
  (status_bands_exhaustive (fun _ => JNum.nan) (JNum.fin (-1)) "rainDrop" (by simp)
    (by simp [knownTypes])).1

/-! ## Alerts and the status card -/

/-- The status for a numeric score, by the two comparisons of the score. -/
theorem getIrrigationStatus_num (conv : JVal → JNum) (sensorData : JObj) (n : JNum)
    (h : getProp sensorData "irrigationScore" = JVal.num n) :
    (JNum.ge n (JNum.fin 6) = true →
      (getIrrigationStatus conv sensorData).status = "Recommended") ∧
    (JNum.lt n (JNum.fin 4) = true →
      (getIrrigationStatus conv sensorData).status = "Not Recommended") := by
  cases n with
  | nan => simp [JNum.ge, JNum.lt]
  | posInf =>
    simp [getIrrigationStatus, h, orElse, truthy, geLit, toNumber, JNum.ge, JNum.lt]
  | negInf =>
    simp [getIrrigationStatus, h, orElse, truthy, geLit, toNumber, JNum.ge, JNum.lt]
  | fin q =>
    have h6 := geLit_score conv (JVal.num (JNum.fin q)) q 6 (Or.inl rfl)
    have h4 := geLit_score conv (JVal.num (JNum.fin q)) q (6 - 2) (Or.inl rfl)
    have e : ((6 : ℚ) - 2) = 4 := by norm_num
    rw [e] at h4
    simp only [JNum.ge, JNum.lt, decide_eq_true_eq]
    constructor
    · intro h1
      simp [getIrrigationStatus, h, h6, h1]
    · intro h1
      have h2 : ¬ (6 ≤ q) := by linarith
      have h3 : ¬ (4 ≤ q) := not_le.mpr h1
      simp [getIrrigationStatus, h, h6, h4, e, h2, h3]

theorem JNum.lt_of_ge (n : JNum) (h : JNum.ge n (JNum.fin 6) = true) :
    JNum.lt n (JNum.fin 4) = false := by
  cases n with
  | fin q =>
    simp only [JNum.ge, decide_eq_true_eq] at h
    simp only [JNum.lt, decide_eq_false_iff_not, not_lt]
    linarith
  | _ => simp_all [JNum.ge, JNum.lt]

/-- C27: the alerts are consistent with the status card.  For every state
whose `irrigationScore` is a number, whenever `irrigationNeeded` is true
`getIrrigationStatus` returns "Recommended" and the "Irrigation Paused"
condition is false; and whenever the "Irrigation Paused" condition is true
`getIrrigationStatus` returns "Not Recommended". -/
theorem alerts_consistent_with_status (conv : JVal → JNum) (sensorData : JObj) (n : JNum)
    (h : getProp sensorData "irrigationScore" = JVal.num n) :
    (irrigationNeeded conv sensorData = true →
      (getIrrigationStatus conv sensorData).status = "Recommended" ∧
      irrigationPaused conv sensorData = false) ∧
    (irrigationPaused conv sensorData = true →
      (getIrrigationStatus conv sensorData).status = "Not Recommended") := by
  obtain ⟨h1, h2⟩ := getIrrigationStatus_num conv sensorData n h
  constructor
  · intro hn
    have h3 : JNum.ge n (JNum.fin 6) = true := by
      simp only [irrigationNeeded, h, geLit, toNumber, Bool.and_eq_true] at hn
      exact hn.1.1
    refine ⟨h1 h3, ?_⟩
    simp [irrigationPaused, h, ltLit, toNumber, JNum.lt_of_ge n h3]
  · intro hp
    have h3 : JNum.lt n (JNum.fin 4) = true := by
      simp only [irrigationPaused, h, ltLit, toNumber, Bool.and_eq_true] at hp
      exact hp.1
    exact h2 h3

/-- A state with score 7, dry soil and no rain, and a state with score 2 in
automatic mode. -/
theorem alerts_consistent_with_status_witness :
    (getIrrigationStatus (fun _ => JNum.nan)
        [("irrigationScore", numLit 7), ("soilMoisture", numLit 20), ("rainDrop", numLit 0),
         ("autoMode", JVal.bool true)]).status = "Recommended" ∧
    irrigationPaused (fun _ => JNum.nan)
        [("irrigationScore", numLit 7), ("soilMoisture", numLit 20), ("rainDrop", numLit 0),
         ("autoMode", JVal.bool true)] = false ∧
    (getIrrigationStatus (fun _ => JNum.nan)
        [("irrigationScore", numLit 2), ("autoMode", JVal.bool true)]).status
      = "Not Recommended" :=
  ⟨((alerts_consistent_with_status (fun _ => JNum.nan)
      [("irrigationScore", numLit 7), ("soilMoisture", numLit 20), ("rainDrop", numLit 0),
       ("autoMode", JVal.bool true)] (JNum.fin 7) (by simp [getProp, numLit])).1
      (by simp [irrigationNeeded, getProp, geLit, ltLit, toNumber, numLit, JNum.ge, JNum.lt]
          norm_num)).1,
   ((alerts_consistent_with_status (fun _ => JNum.nan)
      [("irrigationScore", numLit 7), ("soilMoisture", numLit 20), ("rainDrop", numLit 0),
       ("autoMode", JVal.bool true)] (JNum.fin 7) (by simp [getProp, numLit])).1
      (by simp [irrigationNeeded, getProp, geLit, ltLit, toNumber, numLit, JNum.ge, JNum.lt]
          norm_num)).2,
   (alerts_consistent_with_status (fun _ => JNum.nan)
      [("irrigationScore", numLit 2), ("autoMode", JVal.bool true)] (JNum.fin 2)
      (by simp [getProp, numLit])).2
      (by simp [irrigationPaused, getProp, ltLit, toNumber, numLit, JNum.lt, truthy]
          norm_num)⟩

/-! ## Null field values and the shape of the state -/

/-- C26, the code at the failing input: merging the frame with
`humidity: null` into the initial state stores `null` in `humidity`, where the
frame without `humidity` keeps 65 and where `temperature: null` keeps the prior
temperature; so `null` is not treated as absent for every telemetry field. -/
theorem null_overwrites_humidity :
    getProp (setSensorDataUpdater (JVal.obj [("humidity", JVal.null)]) "t1"
      (initialSensorData "t0")) "humidity" = JVal.null ∧
    getProp (setSensorDataUpdater (JVal.obj []) "t1" (initialSensorData "t0")) "humidity"
      = numLit 65 ∧
    getProp (setSensorDataUpdater (JVal.obj [("temperature", JVal.null)]) "t1"
      (initialSensorData "t0")) "temperature" = numLit 28.5 ∧
    ¬ (∀ (frame : JObj) (now : String) (prev : JObj) (key : String),
        key ∈ telemetryFields → getProp frame key = JVal.null →
        getProp (setSensorDataUpdater (JVal.obj frame) now prev) key = getProp prev key) := by
  have h1 : getProp (setSensorDataUpdater (JVal.obj [("humidity", JVal.null)]) "t1"
      (initialSensorData "t0")) "humidity" = JVal.null := by
    simp [getProp_setSensorDataUpdater, nullishFields, definedFields, field, getProp, ifDefined]
  have h2 : getProp (initialSensorData "t0") "humidity" = numLit 65 := by
    simp [initialSensorData, getProp]
  refine ⟨h1, ?_, ?_, fun h => ?_⟩
  · simp [getProp_setSensorDataUpdater, nullishFields, definedFields, field, getProp, ifDefined,
      initialSensorData]
  · simp [getProp_setSensorDataUpdater, nullishFields, field, getProp, nullish,
      initialSensorData]
  · have h3 := h [("humidity", JVal.null)] "t1" (initialSensorData "t0") "humidity"
      (by simp [telemetryFields]) (by simp [getProp])
    rw [h1, h2] at h3
    simp [numLit] at h3

/-- Writing a property that the object has keeps its property names. -/
theorem keys_setProp_of_mem (o : JObj) (k : String) (v : JVal) (h : k ∈ keys o) :
    keys (setProp o k v) = keys o := by
  induction o with
  | nil => simp [keys] at h
  | cons p rest ih =>
    obtain ⟨k0, w⟩ := p
    by_cases h0 : k0 = k
    · simp [setProp, keys, h0]
    · have h1 : k ∈ keys rest := by
        simp only [keys, List.map_cons, List.mem_cons] at h
        rcases h with h | h
        · exact absurd h.symm h0
        · exact h
      have ih2 := ih h1
      simp only [keys] at ih2
      simp [setProp, keys, h0, ih2]

/-- One merge keeps the property names of a state that has the thirteen
written ones. -/
theorem keys_setSensorDataUpdater (data : JVal) (now : String) (prev : JObj)
    (h : ∀ k ∈ "lastUpdated" :: telemetryFields, k ∈ keys prev) :
    keys (setSensorDataUpdater data now prev) = keys prev := by
  have hk : ∀ k, k ∈ "lastUpdated" :: telemetryFields → ∀ o : JObj, keys o = keys prev →
      ∀ v, keys (setProp o k v) = keys prev := by
    intro k hk o ho v
    rw [keys_setProp_of_mem o k v (ho ▸ h k hk), ho]
  unfold setSensorDataUpdater
  simp only []
  repeat first
    | exact rfl
    | apply hk _ (by simp [telemetryFields])

/-- C28: for every sequence of JSON-object frames, whatever fields they carry,
applied from `initialSensorData`, the resulting state has exactly the property
names of `initialSensorData` (the fourteen listed, in the same order): no
field of a frame enters the state under a new name and no initial field is
dropped. -/
theorem mergeFrames_keeps_key_set (t0 : String) (frames : List (JObj × String)) :
    keys (mergeFrames frames (initialSensorData t0)) = keys (initialSensorData t0) ∧
    keys (mergeFrames frames (initialSensorData t0))
      = ["temperature", "humidity", "soilMoisture", "soilMoistureRaw", "lightLevel",
          "lightLevelRaw", "rainDrop", "rainDropRaw", "pumpStatus", "autoMode",
          "irrigationScore", "lastUpdated", "connectionStatus", "espConnected"] := by
  have h0 : keys (initialSensorData t0)
      = ["temperature", "humidity", "soilMoisture", "soilMoistureRaw", "lightLevel",
          "lightLevelRaw", "rainDrop", "rainDropRaw", "pumpStatus", "autoMode",
          "irrigationScore", "lastUpdated", "connectionStatus", "espConnected"] := by
    simp [keys, initialSensorData]
  have h : keys (mergeFrames frames (initialSensorData t0)) = keys (initialSensorData t0) := by
    induction frames using List.reverseRecOn with
    | nil => rfl
    | append_singleton fs f ih =>
      rw [mergeFrames_append, keys_setSensorDataUpdater, ih]
      intro k hk
      rw [ih, h0]
      simp only [telemetryFields, List.mem_cons, List.mem_singleton, List.not_mem_nil,
        or_false] at hk
      rcases hk with h | h | h | h | h | h | h | h | h | h | h | h | h <;> subst h <;> simp
  exact ⟨h, h.trans h0⟩

/-! ## Pump and mode toggles -/

/-- Writing the value a property already has leaves the object as it is. -/
theorem setProp_of_getProp (o : JObj) (k : String) (v : JVal) (h : getProp o k = v)
    (hv : v ≠ JVal.undefined) : setProp o k v = o := by
  induction o with
  | nil => exact absurd h.symm hv
  | cons p rest ih =>
    obtain ⟨k0, w⟩ := p
    by_cases h0 : k0 = k
    · subst h0
      simp only [getProp, if_true] at h
      simp [setProp, h]
    · simp only [getProp, if_neg h0] at h
      simp [setProp, h0, ih h]

/-- The second of two writes of one property wins. -/
theorem setProp_setProp (o : JObj) (k : String) (v w : JVal) :
    setProp (setProp o k v) k w = setProp o k w := by
  induction o with
  | nil => simp [setProp]
  | cons p rest ih =>
    obtain ⟨k0, u⟩ := p
    by_cases h0 : k0 = k
    · simp [setProp, h0]
    · simp [setProp, h0, ih]

/-- C21 (amended): for every state and every socket state, `togglePump` sets
`pumpStatus` to its negation and changes no other field; when the socket is
open it sends one command frame, "pump-on" if the new `pumpStatus` is true and
"pump-off" otherwise, and when the socket is not open it sends nothing.
`toggleAutoMode` does the same for `autoMode` with "auto-on" and "auto-off". -/
theorem toggles_consistent_with_command (ws : Option ReadyState) (st : JObj) (key : String) :
    (getProp (togglePump ws st st).sensorData "pumpStatus"
        = JVal.bool (!truthy (getProp st "pumpStatus")) ∧
      (key ≠ "pumpStatus" → getProp (togglePump ws st st).sensorData key = getProp st key) ∧
      (togglePump ws st st).sent
        = (if ws = some ReadyState.OPEN then
            [commandFrame (if (!truthy (getProp st "pumpStatus")) = true then "pump-on"
              else "pump-off")]
          else [])) ∧
    (getProp (toggleAutoMode ws st st).sensorData "autoMode"
        = JVal.bool (!truthy (getProp st "autoMode")) ∧
      (key ≠ "autoMode" → getProp (toggleAutoMode ws st st).sensorData key = getProp st key) ∧
      (toggleAutoMode ws st st).sent
        = (if ws = some ReadyState.OPEN then
            [commandFrame (if (!truthy (getProp st "autoMode")) = true then "auto-on"
              else "auto-off")]
          else [])) := by
  refine ⟨⟨?_, ?_, ?_⟩, ⟨?_, ?_, ?_⟩⟩
  · simp [togglePump, getProp_setProp]
  · intro hk
    simp [togglePump, getProp_setProp, Ne.symm hk]
  · simp [togglePump]
  · simp [toggleAutoMode, getProp_setProp]
  · intro hk
    simp [toggleAutoMode, getProp_setProp, Ne.symm hk]
  · simp [toggleAutoMode]

/-- Both toggles on the initial state leave `temperature` alone. -/
theorem toggles_consistent_with_command_witness :
    getProp (togglePump (some ReadyState.OPEN) (initialSensorData "t0")
      (initialSensorData "t0")).sensorData "temperature"
      = getProp (initialSensorData "t0") "temperature" ∧
    getProp (toggleAutoMode (some ReadyState.OPEN) (initialSensorData "t0")
      (initialSensorData "t0")).sensorData "temperature"
      = getProp (initialSensorData "t0") "temperature" :=
  ⟨(toggles_consistent_with_command (some ReadyState.OPEN) (initialSensorData "t0")
      "temperature").1.2.1 (by decide),
   (toggles_consistent_with_command (some ReadyState.OPEN) (initialSensorData "t0")
      "temperature").2.2.1 (by decide)⟩

/-- C21 as stated fails: on the initial state with a closed socket
`togglePump` sets `pumpStatus` to true and sends nothing, no "pump-on". -/
theorem toggle_sends_nothing_without_open_socket :
    getProp (togglePump (some ReadyState.CLOSED) (initialSensorData "t0")
      (initialSensorData "t0")).sensorData "pumpStatus" = JVal.bool true ∧
    (togglePump (some ReadyState.CLOSED) (initialSensorData "t0")
      (initialSensorData "t0")).sent = [] ∧
    ¬ (∀ (ws : Option ReadyState) (st : JObj),
        (getProp (togglePump ws st st).sensorData "pumpStatus" = JVal.bool true →
          (togglePump ws st st).sent = [commandFrame "pump-on"]) ∧
        (getProp (togglePump ws st st).sensorData "pumpStatus" ≠ JVal.bool true →
          (togglePump ws st st).sent = [commandFrame "pump-off"])) := by
  have h1 : getProp (togglePump (some ReadyState.CLOSED) (initialSensorData "t0")
      (initialSensorData "t0")).sensorData "pumpStatus" = JVal.bool true := by
    simp [togglePump, getProp_setProp, initialSensorData, getProp, truthy]
  have h2 : (togglePump (some ReadyState.CLOSED) (initialSensorData "t0")
      (initialSensorData "t0")).sent = [] := by
    simp [togglePump]
  refine ⟨h1, h2, fun h => ?_⟩
  have h3 := (h (some ReadyState.CLOSED) (initialSensorData "t0")).1 h1
  rw [h2] at h3
  simp at h3

/-- Two toggles of a boolean property restore the state. -/
theorem setProp_toggle_twice (st : JObj) (k : String) (b : Bool)
    (h : getProp st k = JVal.bool b) :
    setProp (setProp st k (JVal.bool (!b))) k (JVal.bool (!(!b))) = st := by
  rw [setProp_setProp, Bool.not_not]
  exact setProp_of_getProp st k _ h (by simp)

/-- C29 (amended): toggling is an involution on the states whose `pumpStatus`
is a boolean: applying `togglePump` twice, each time reading the state the
previous toggle produced, returns the original state; with the socket open the
two toggles send "pump-on" and "pump-off" in one order or the other; and the
state change is the same whatever the socket state.  The same holds for
`toggleAutoMode` on the states whose `autoMode` is a boolean, with "auto-on"
and "auto-off". -/
theorem toggle_twice_restores_state (ws1 ws2 : Option ReadyState) (st : JObj) (b : Bool) :
    (getProp st "pumpStatus" = JVal.bool b →
      (togglePump ws2 (togglePump ws1 st st).sensorData
        (togglePump ws1 st st).sensorData).sensorData = st ∧
      (togglePump (some ReadyState.OPEN) st st).sent
        = [commandFrame (if b = true then "pump-off" else "pump-on")] ∧
      (togglePump (some ReadyState.OPEN) (togglePump ws1 st st).sensorData
        (togglePump ws1 st st).sensorData).sent
        = [commandFrame (if b = true then "pump-on" else "pump-off")] ∧
      (togglePump ws1 st st).sensorData = (togglePump ws2 st st).sensorData) ∧
    (getProp st "autoMode" = JVal.bool b →
      (toggleAutoMode ws2 (toggleAutoMode ws1 st st).sensorData
        (toggleAutoMode ws1 st st).sensorData).sensorData = st ∧
      (toggleAutoMode (some ReadyState.OPEN) st st).sent
        = [commandFrame (if b = true then "auto-off" else "auto-on")] ∧
      (toggleAutoMode (some ReadyState.OPEN) (toggleAutoMode ws1 st st).sensorData
        (toggleAutoMode ws1 st st).sensorData).sent
        = [commandFrame (if b = true then "auto-on" else "auto-off")] ∧
      (toggleAutoMode ws1 st st).sensorData = (toggleAutoMode ws2 st st).sensorData) := by
  constructor
  · intro h
    refine ⟨?_, ?_, ?_, rfl⟩
    · simp only [togglePump, getProp_setProp, if_true, h, truthy]
      exact setProp_toggle_twice st "pumpStatus" b h
    · cases b <;> simp [togglePump, h, truthy]
    · cases b <;> simp [togglePump, getProp_setProp, h, truthy]
  · intro h
    refine ⟨?_, ?_, ?_, rfl⟩
    · simp only [toggleAutoMode, getProp_setProp, if_true, h, truthy]
      exact setProp_toggle_twice st "autoMode" b h
    · cases b <;> simp [toggleAutoMode, h, truthy]
    · cases b <;> simp [toggleAutoMode, getProp_setProp, h, truthy]

/-- The initial state, toggled with the socket open and then without a
socket. -/
theorem toggle_twice_restores_state_witness :
    (togglePump none (togglePump (some ReadyState.OPEN) (initialSensorData "t0")
        (initialSensorData "t0")).sensorData
      (togglePump (some ReadyState.OPEN) (initialSensorData "t0")
        (initialSensorData "t0")).sensorData).sensorData = initialSensorData "t0" ∧
    (togglePump (some ReadyState.OPEN) (initialSensorData "t0") (initialSensorData "t0")).sent
      = [commandFrame (if false = true then "pump-off" else "pump-on")] ∧
    (togglePump (some ReadyState.OPEN)
      (togglePump (some ReadyState.OPEN) (initialSensorData "t0")
        (initialSensorData "t0")).sensorData
      (togglePump (some ReadyState.OPEN) (initialSensorData "t0")
        (initialSensorData "t0")).sensorData).sent
      = [commandFrame (if false = true then "pump-on" else "pump-off")] ∧
    (togglePump (some ReadyState.OPEN) (initialSensorData "t0")
        (initialSensorData "t0")).sensorData
      = (togglePump none (initialSensorData "t0") (initialSensorData "t0")).sensorData :=
  (toggle_twice_restores_state (some ReadyState.OPEN) none (initialSensorData "t0") false).1
    (by simp [initialSensorData, getProp])

/-- C29 as stated fails: in the state reached from the initial one by the
frame with `pumpStatus: 1`, two toggles leave `pumpStatus` at `true`, not at 1;
and without a socket no command is sent at all. -/
theorem toggle_twice_not_identity :
    getProp (setSensorDataUpdater (JVal.obj [("pumpStatus", numLit 1)]) "t1"
      (initialSensorData "t0")) "pumpStatus" = numLit 1 ∧
    getProp (togglePump none
      (togglePump none
        (setSensorDataUpdater (JVal.obj [("pumpStatus", numLit 1)]) "t1"
          (initialSensorData "t0"))
        (setSensorDataUpdater (JVal.obj [("pumpStatus", numLit 1)]) "t1"
          (initialSensorData "t0"))).sensorData
      (togglePump none
        (setSensorDataUpdater (JVal.obj [("pumpStatus", numLit 1)]) "t1"
          (initialSensorData "t0"))
        (setSensorDataUpdater (JVal.obj [("pumpStatus", numLit 1)]) "t1"
          (initialSensorData "t0"))).sensorData).sensorData "pumpStatus" = JVal.bool true ∧
    (togglePump none (initialSensorData "t0") (initialSensorData "t0")).sent = [] ∧
    ¬ (∀ (ws1 ws2 : Option ReadyState) (st : JObj),
        (togglePump ws2 (togglePump ws1 st st).sensorData
          (togglePump ws1 st st).sensorData).sensorData = st) ∧
    ¬ (∀ (ws1 ws2 : Option ReadyState) (st : JObj),
        (togglePump ws1 st st).sent ++
          (togglePump ws2 (togglePump ws1 st st).sensorData
            (togglePump ws1 st st).sensorData).sent
          = [commandFrame "pump-on", commandFrame "pump-off"] ∨
        (togglePump ws1 st st).sent ++
          (togglePump ws2 (togglePump ws1 st st).sensorData
            (togglePump ws1 st st).sensorData).sent
          = [commandFrame "pump-off", commandFrame "pump-on"]) := by
  have h1 : getProp (setSensorDataUpdater (JVal.obj [("pumpStatus", numLit 1)]) "t1"
      (initialSensorData "t0")) "pumpStatus" = numLit 1 := by
    simp [getProp_setSensorDataUpdater, nullishFields, field, getProp, nullish, numLit]
  have h2 : ∀ st : JObj, getProp (togglePump none (togglePump none st st).sensorData
      (togglePump none st st).sensorData).sensorData "pumpStatus"
      = JVal.bool (truthy (getProp st "pumpStatus")) := by
    intro st
    simp [togglePump, getProp_setProp, truthy]
  refine ⟨h1, ?_, ?_, fun h => ?_, fun h => ?_⟩
  · rw [h2, h1]
    simp [truthy, numLit]
  · simp [togglePump]
  · have h3 := congrArg (fun o => getProp o "pumpStatus")
      (h none none (setSensorDataUpdater (JVal.obj [("pumpStatus", numLit 1)]) "t1"
        (initialSensorData "t0")))
    simp only [h2, h1] at h3
    simp [numLit] at h3
  · have h3 := h none none (initialSensorData "t0")
    simp [togglePump] at h3

end SmartIrrigation
